import Mathlib

/-!
Verification of the advanced-suggestions engine of FAST_BULKFILE_ANALYSIS
(`app/services/adv_suggestions.py`), as a shallow embedding in Lean 4.

Conventions of the embedding:
* Python numbers are modelled as exact rationals (`ℚ`).  `round(x, 2)` is
  modelled as round-half-to-even on the exact rational (`round2`); all
  concrete inputs used in counterexamples and witnesses are chosen away
  from representation ties, where the float and the rational computation
  agree.  `int(x)` is truncation toward zero (`pytrunc`).
* Python dicts whose values matter to the engine are association lists in
  insertion order; `dict.get` is first-match lookup (keys are unique by
  construction, as in the source).
* A bulk action row is an association list from column name to a dynamic
  Python value (`PVal`); `_sp_row(**kw)` prepends the `Product` column.
* Display-only strings (suggestion `title`, `detail`) and the run-id
  assignment (`hash(title)`, a salted runtime hash) are not modelled; no
  property below depends on them.
-/

namespace Adv

/-- A Python runtime value as it appears in metric dicts and action rows:
an int, a float (exact rational), a string, a bool, or `None`. -/
inductive PVal where
| pInt (n : ℤ)
| pFloat (q : ℚ)
| pStr (s : String)
| pBool (b : Bool)
| pNone
deriving DecidableEq, Inhabited, Repr

open PVal

/-- Truthiness of a `PVal`, as Python's `bool(v)`. -/
def pyTruthy : PVal → Bool
| pInt n => n ≠ 0
| pFloat q => q ≠ 0
| pStr s => s ≠ ""
| pBool b => b
| pNone => false

/-- Decimal value of a run of digit characters. -/
def digitsVal (l : List Char) : ℕ :=
  l.foldl (fun a c => a * 10 + (c.toNat - 48)) 0

/-- Parse an unsigned decimal numeral, optionally with a fractional part
(`"12"`, `"12.5"`, `".5"`, `"12."`). -/
def parseUnsigned (l : List Char) : Option ℚ :=
  let intPart := l.takeWhile Char.isDigit
  let rest := l.dropWhile Char.isDigit
  match rest with
  | [] => if intPart.isEmpty then none else some (digitsVal intPart)
  | '.' :: fr =>
      if fr.all Char.isDigit ∧ (intPart ≠ [] ∨ fr ≠ []) then
        some ((digitsVal intPart : ℚ) + (digitsVal fr : ℚ) / (10 ^ fr.length))
      else none
  | _ => none

/-- Python `float(s)` on a string: strip surrounding spaces, optional sign,
then a plain decimal numeral.  (Exponent/`inf`/`nan` forms do not occur in
this engine's data and are not modelled.) -/
def pyParseFloat (s : String) : Option ℚ :=
  let l := ((s.data.dropWhile (· = ' ')).reverse.dropWhile (· = ' ')).reverse
  match l with
  | '+' :: r => parseUnsigned r
  | '-' :: r => (parseUnsigned r).map Neg.neg
  | r => parseUnsigned r

/-- Python `float(v)` coercion: succeeds on ints, floats, bools and numeric
strings; `float(None)` and non-numeric strings raise (here: `none`). -/
def pyFloat : PVal → Option ℚ
| pInt n => some n
| pFloat q => some q
| pBool b => some (if b then 1 else 0)
| pStr s => pyParseFloat s
| pNone => none

/-- A metric snapshot: the `data` dict a generator builds for rule
evaluation (`metric name ↦ value`). -/
abbrev MetricData := List (String × PVal)

/-- `d.get(k)` on an association list (first match). -/
def dget (d : List (String × PVal)) (k : String) : Option PVal :=
  (d.find? (fun kv => kv.1 == k)).map (·.2)

/-- One condition of a custom rule, with the source's `dict.get` defaults
already applied: `metric = condition.get("metric", "")`,
`op = condition.get("operator", ">")`, `value = condition.get("value", 0)`. -/
structure Condition where
  metric : String
  op : String
  value : PVal
deriving DecidableEq, Inhabited

/-- The actual value `_evaluate_condition` compares:
`data.get(metric, 0)`, with `None` coalesced to `0`. -/
def condActual (data : MetricData) (c : Condition) : PVal :=
  let a := (dget data c.metric).getD (pInt 0)
  if a = pNone then pInt 0 else a

/-- `_evaluate_condition(data, condition)` of `adv_suggestions.py`:
coerce both sides with `float(...)`; on failure return `False`; otherwise
dispatch on the operator string (unknown operator ⇒ `False`). -/
def evaluate_condition (data : MetricData) (c : Condition) : Bool :=
  match pyFloat (condActual data c), pyFloat c.value with
  | some actual, some value =>
      if c.op = ">" then decide (actual > value)
      else if c.op = ">=" then decide (actual ≥ value)
      else if c.op = "<" then decide (actual < value)
      else if c.op = "<=" then decide (actual ≤ value)
      else if c.op = "==" then decide (actual = value)
      else if c.op = "!=" then decide (actual ≠ value)
      else false
  | _, _ => false

/-- The action payload of a custom rule (`rule["action"]`), with each key
optional as in the source's `action.get(...)` reads.  The payloads the
engine reads are `bid_multiplier` (exact rules), `match_type` (negative
rules), `type`/`value` (placement rules) and `step` (bid rules). -/
structure RuleAction where
  type : Option String := none
  value : Option ℚ := none
  bid_multiplier : Option ℚ := none
  match_type : Option String := none
  step : Option ℚ := none
deriving DecidableEq, Inhabited

/-- A custom rule: `enabled = rule.get("enabled", True)` (absent ⇒ enabled),
`conditions = rule.get("conditions", [])`, plus the action payload. -/
structure Rule where
  enabled : Option Bool := none
  conditions : List Condition := []
  action : RuleAction := {}
deriving DecidableEq, Inhabited

/-- `_evaluate_rule(data, rule)`: `False` for a disabled rule or an empty
conditions list, otherwise the conjunction of all conditions. -/
def evaluate_rule (data : MetricData) (r : Rule) : Bool :=
  if ¬ (r.enabled.getD true) then false
  else if r.conditions.isEmpty then false
  else r.conditions.all (evaluate_condition data)

/-- `_find_matching_rule(data, rules)`: the first rule that evaluates true. -/
def find_matching_rule (data : MetricData) (rules : List Rule) : Option Rule :=
  rules.find? (evaluate_rule data)

/-! ### Numeric helpers: Python `round` and `int` -/

/-- Round to the nearest integer, ties to even (Python `round` on exact
values). -/
def roundHalfEven (q : ℚ) : ℤ :=
  if q - ⌊q⌋ < 1/2 then ⌊q⌋
  else if 1/2 < q - ⌊q⌋ then ⌊q⌋ + 1
  else if ⌊q⌋ % 2 = 0 then ⌊q⌋ else ⌊q⌋ + 1

/-- Python `round(q, 2)` on the exact rational. -/
def round2 (q : ℚ) : ℚ := (roundHalfEven (q * 100) : ℚ) / 100

/-- Python `int(q)`: truncation toward zero. -/
def pytrunc (q : ℚ) : ℤ := if 0 ≤ q then ⌊q⌋ else -⌊-q⌋

/-! ### String helpers -/

/-- Python `str.strip()` (ASCII whitespace, as used on keyword text). -/
def pyStrip (s : String) : String :=
  String.mk (((s.data.dropWhile Char.isWhitespace).reverse.dropWhile
      Char.isWhitespace).reverse)

/-- Collapse each maximal run of whitespace to a single space
(`re.sub(r"\s+", " ", ·)`); the flag records whether the previous character
was part of a whitespace run. -/
def collapseGo : Bool → List Char → List Char
| _, [] => []
| prevWs, c :: rest =>
    if c.isWhitespace then
      if prevWs then collapseGo true rest
      else ' ' :: collapseGo true rest
    else c :: collapseGo false rest

/-- `_norm_kw(text)`: strip, lowercase, collapse internal whitespace. -/
def norm_kw (s : String) : String :=
  String.mk (collapseGo false ((pyStrip s).data.map Char.toLower))

/-- `[A-Z0-9]`, the character class of the ASIN pattern. -/
def isAsinChar (c : Char) : Bool :=
  ('A' ≤ c ∧ c ≤ 'Z') ∨ ('0' ≤ c ∧ c ≤ '9')

/-- A regex word character (`\w`), ASCII. -/
def isWordChar (c : Char) : Bool := c.isAlphanum ∨ c = '_'

/-- Try to match `\b(B0[A-Z0-9]{8})\b` at the head of `l`, `prev` being the
character just before (for the left word boundary). -/
def asinAt (prev : Option Char) (l : List Char) : Option String :=
  match l with
  | 'B' :: '0' :: rest =>
      let cand := rest.take 8
      let leftOk : Bool := match prev with | some c => ¬ isWordChar c | none => true
      let rightOk : Bool := match rest.drop 8 with | [] => true | c :: _ => ¬ isWordChar c
      if cand.length = 8 ∧ cand.all isAsinChar ∧ leftOk ∧ rightOk then
        some (String.mk ('B' :: '0' :: cand))
      else none
  | _ => none

/-- Leftmost search for the ASIN pattern. -/
def searchAsin : Option Char → List Char → Option String
| _, [] => none
| prev, c :: rest =>
    match asinAt prev (c :: rest) with
    | some s => some s
    | none => searchAsin (some c) rest

/-- `_extract_asin(text)`: first `\b(B0[A-Z0-9]{8})\b` match, else `""`. -/
def extract_asin (s : String) : String := (searchAsin none s.data).getD ""

/-! ### Data model (rows of the analysis snapshot)

Each structure carries the keys the suggestions engine reads from the
corresponding dict of `fast_analysis.analyze_bulk_file()`'s output; keys the
source reads with `dict.get(..., default)` are plain fields holding the
default when absent. -/

/-- One row of `analysis["campaigns_table"]`. -/
structure Campaign where
  campaign_id : String
  name : String
  portfolio_id : String := ""
  daily_budget : ℚ := 10
  impressions : ℚ := 0
  clicks : ℚ := 0
  spend : ℚ := 0
  sales : ℚ := 0
  orders : ℚ := 0
  ctr : ℚ := 0
  cpc : ℚ := 0
  acos : ℚ := 0
  roas : ℚ := 0
deriving DecidableEq, Inhabited

/-- One row of `analysis["targets"]` (a Keyword or Product Targeting row). -/
structure Target where
  entity : String
  campaign_id : String
  campaign_name : String := ""
  ad_group_id : String := ""
  ad_group_name : String := ""
  keyword_id : String := ""
  product_targeting_id : String := ""
  keyword_text : String := ""
  match_type : String := ""
  product_targeting_expression : String := ""
  bid : ℚ := 0
  state : String := ""
  impressions : ℚ := 0
  clicks : ℚ := 0
  spend : ℚ := 0
  sales : ℚ := 0
  orders : ℚ := 0
  cpc : ℚ := 0
deriving DecidableEq, Inhabited

/-- One row of `analysis["placements"]` (a Bidding Adjustment row). -/
structure Placement where
  campaign_id : String
  campaign_name : String := ""
  placement : String
  percentage : ℚ := 0
  impressions : ℚ := 0
  clicks : ℚ := 0
  spend : ℚ := 0
  sales : ℚ := 0
  orders : ℚ := 0
  cpc : ℚ := 0
  acos : ℚ := 0
  cvr : ℚ := 0
  ctr : ℚ := 0
deriving DecidableEq, Inhabited

/-- One row of `analysis["search_terms_detail"]`. -/
structure SearchTermRow where
  search_term : String
  campaign_id : String
  campaign_name : String := ""
  ad_group_id : String := ""
  source_type : String := ""
  impressions : ℚ := 0
  clicks : ℚ := 0
  spend : ℚ := 0
  sales : ℚ := 0
  orders : ℚ := 0
  ctr : ℚ := 0
  cpc : ℚ := 0
deriving DecidableEq, Inhabited

/-- One row of `analysis["product_ads"]` (`asin`/`sku` empty when absent). -/
structure ProductAd where
  campaign_id : String
  asin : String := ""
  sku : String := ""
deriving DecidableEq, Inhabited

/-- One row of `analysis["portfolios"]`. -/
structure PortfolioEntry where
  portfolio_id : String
  name : String
deriving DecidableEq, Inhabited

/-- A metrics-payload value of a suggestion (numbers, strings, or the
`available_skus` string list). -/
inductive MVal where
| num (q : ℚ)
| str (s : String)
| strList (l : List String)
deriving DecidableEq, Inhabited, Repr

/-- A bulk action row: column name ↦ value, in insertion order. -/
abbrev Row := List (String × PVal)

/-- `row.get(col)` (first match; rows are built without duplicate keys). -/
def rowGet (r : Row) (k : String) : Option PVal :=
  (r.find? (fun kv => kv.1 == k)).map (·.2)

/-- `m.get(k)` on a metrics payload. -/
def mGet (m : List (String × MVal)) (k : String) : Option MVal :=
  (m.find? (fun kv => kv.1 == k)).map (·.2)

/-- `_sp_row(**kw)`: a Sponsored Products bulk row (the `Product` column
first, then the keyword arguments in order). -/
def sp_row (kw : List (String × PVal)) : Row :=
  ("Product", pStr "Sponsored Products") :: kw

/-- A suggestion record.  `title`/`detail` (display-only formatted strings)
and the orchestrator's `id` (a salted runtime `hash(title)`) are not
modelled; no verified property depends on them. -/
structure Suggestion where
  category : String
  severity : String
  metrics : List (String × MVal) := []
  actions : List Row := []
deriving DecidableEq, Inhabited

/-! ### Generic dict helpers (Python dict semantics) -/

/-- `m[k]` lookup (first match; builders below keep keys unique). -/
def dlookup {α : Type} (m : List (String × α)) (k : String) : Option α :=
  (m.find? (fun kv => kv.1 == k)).map (·.2)

/-- `m[k] = v`: overwrite in place if the key exists (Python dicts keep the
original position), else append. -/
def dset {α : Type} (m : List (String × α)) (k : String) (v : α) :
    List (String × α) :=
  match m with
  | [] => [(k, v)]
  | kv :: rest => if kv.1 = k then (k, v) :: rest else kv :: dset rest k v

/-- Append `x` to the group of `k` (a `defaultdict(list)` append), creating
the group at the end on first touch. -/
def dappend {α : Type} (m : List (String × List α)) (k : String) (x : α) :
    List (String × List α) :=
  match m with
  | [] => [(k, [x])]
  | kv :: rest => if kv.1 = k then (k, kv.2 ++ [x]) :: rest else kv :: dappend rest k x

/-! ### Threshold policy -/

/-- The per-category custom rule lists
(`t["custom_rules"].get(category, [])`). -/
structure CustomRules where
  exact : List Rule := []
  negatives : List Rule := []
  pause : List Rule := []
  placement : List Rule := []
  bids : List Rule := []
deriving DecidableEq, Inhabited

/-- The merged threshold dict `t = {**DEFAULTS, **(thresholds or {})}`.
Field defaults are the source's `DEFAULTS`; a structure update is the
caller's override.  (`spend_negative`, `ctr_negative` and `acos_pause` are
declared in the source's `DEFAULTS` but never read by the engine, and are
omitted.)  The source key `bid_reduction_ratio` is field `bid_reduction`
here. -/
structure Thresholds where
  acos_ineffective : ℚ := 35/100
  acos_target : ℚ := 30/100
  spend_campaign_pause : ℚ := 15
  spend_target_pause : ℚ := 10
  clicks_negative : ℚ := 10
  negative_match_type : String := "Negative Exact"
  orders_create_exact : ℚ := 2
  cvr_create_exact : ℚ := 20/100
  bid_multiplier : ℚ := 11/10
  cvr_bid_increase : ℚ := 30/100
  acos_bid_increase : ℚ := 20/100
  acos_target_increase : ℚ := 25/100
  bid_increase_step : ℚ := 15/100
  orders_bid_increase : ℚ := 3
  clicks_bid_increase : ℚ := 10
  max_placement_pct : ℚ := 900
  bid_reduction : ℚ := 1/2
  custom_rules : Option CustomRules := none
deriving DecidableEq, Inhabited

/-- The source's `DEFAULTS` dict as a `Thresholds` record. -/
def DEFAULTS : Thresholds := {}

/-- `(t.get("custom_rules") or {}).get(category, [])`. -/
def rulesFor (t : Thresholds) (category : CustomRules → List Rule) : List Rule :=
  match t.custom_rules with
  | some cr => category cr
  | none => []

/-! ### C) Pause campaigns (`_pause_campaigns`) -/

/-- The rule-evaluation `data` dict `_pause_campaigns` builds per campaign. -/
def campaignPauseData (c : Campaign) : MetricData :=
  [("spend", pFloat c.spend), ("orders", pFloat c.orders),
   ("clicks", pFloat c.clicks), ("sales", pFloat c.sales),
   ("impressions", pFloat c.impressions),
   ("acos", pFloat (if c.sales > 0 then round2 (c.spend / c.sales * 100) else 0)),
   ("cvr", pFloat (if c.clicks > 0 then round2 (c.orders / c.clicks * 100) else 0)),
   ("ctr", pFloat c.ctr), ("cpc", pFloat c.cpc), ("roas", pFloat c.roas)]

/-- One iteration of `_pause_campaigns`' loop: custom "pause" rule first,
else the default gate (spend at/above threshold and zero orders). -/
def pauseCampaignStep (t : Thresholds) (c : Campaign) : Option Suggestion :=
  let matched := find_matching_rule (campaignPauseData c) (rulesFor t (·.pause))
  if matched.isNone ∧ (c.spend < t.spend_campaign_pause ∨ c.orders > 0) then none
  else some
    { category := "Pause Campaigns", severity := "high",
      metrics := [("spend", .num c.spend), ("orders", .num c.orders),
                  ("clicks", .num c.clicks), ("impressions", .num c.impressions),
                  ("cpc", .num c.cpc)],
      actions := [sp_row
        [("Entity", pStr "Campaign"), ("Operation", pStr "Update"),
         ("Campaign ID", pStr c.campaign_id), ("Campaign Name", pStr c.name),
         ("State", pStr "paused")]] }

/-- `_pause_campaigns(campaigns, t)`. -/
def pause_campaigns (campaigns : List Campaign) (t : Thresholds) : List Suggestion :=
  campaigns.filterMap (pauseCampaignStep t)

/-! ### D) Pause targets (`_pause_targets`) -/

/-- The rule-evaluation `data` dict `_pause_targets` builds per target. -/
def targetPauseData (tg : Target) : MetricData :=
  [("spend", pFloat tg.spend), ("orders", pFloat tg.orders),
   ("clicks", pFloat tg.clicks), ("sales", pFloat tg.sales),
   ("impressions", pFloat tg.impressions),
   ("acos", pFloat (if tg.sales > 0 then round2 (tg.spend / tg.sales * 100) else 0)),
   ("cvr", pFloat (if tg.clicks > 0 then round2 (tg.orders / tg.clicks * 100) else 0)),
   ("cpc", pFloat tg.cpc), ("bid", pFloat tg.bid)]

/-- `tgt["keyword_text"] or tgt["product_targeting_expression"] or "?"`. -/
def targetLabel (tg : Target) : String :=
  if tg.keyword_text ≠ "" then tg.keyword_text
  else if tg.product_targeting_expression ≠ "" then tg.product_targeting_expression
  else "?"

/-- One iteration of `_pause_targets`' loop.  `tpc` is the
`targets_per_campaign` count (built by `generate_suggestions` over the whole
targets list, whatever their state); a campaign with at most one counted
target gets a campaign-pause row instead of a target-pause row. -/
def pauseTargetStep (tpc : String → ℕ) (t : Thresholds) (tg : Target) :
    Option Suggestion :=
  let matched := find_matching_rule (targetPauseData tg) (rulesFor t (·.pause))
  if matched.isNone ∧ (tg.spend < t.spend_target_pause ∨ tg.orders > 0) then none
  else if tpc tg.campaign_id ≤ 1 then some
    { category := "Pause Targets", severity := "high",
      metrics := [("target", .str (targetLabel tg)), ("spend", .num tg.spend),
                  ("clicks", .num tg.clicks), ("orders", .num 0)],
      actions := [sp_row
        [("Entity", pStr "Campaign"), ("Operation", pStr "Update"),
         ("Campaign ID", pStr tg.campaign_id),
         ("Campaign Name", pStr tg.campaign_name),
         ("State", pStr "paused")]] }
  else some
    { category := "Pause Targets", severity := "high",
      metrics := [("target", .str (targetLabel tg)), ("spend", .num tg.spend),
                  ("clicks", .num tg.clicks), ("orders", .num 0),
                  ("campaign", .str tg.campaign_name)],
      actions := [sp_row
        [("Entity", pStr tg.entity), ("Operation", pStr "Update"),
         ("Campaign ID", pStr tg.campaign_id),
         ("Ad Group ID", pStr tg.ad_group_id),
         ("State", pStr "paused")] ++
        (if tg.entity = "Keyword" then
          [("Keyword Text", pStr tg.keyword_text),
           ("Match Type", pStr tg.match_type)]
        else
          [("Product Targeting Expression",
            pStr tg.product_targeting_expression)])] }

/-- `_pause_targets(targets, targets_per_campaign, t)`. -/
def pause_targets (targets : List Target) (tpc : String → ℕ) (t : Thresholds) :
    List Suggestion :=
  targets.filterMap (pauseTargetStep tpc t)

/-! ### B) Search-term negatives (`_negative_search_terms`) -/

/-- `_is_non_exact_source(source_type)`. -/
def is_non_exact_source (source_type : String) : Bool :=
  let s := pyStrip (String.mk (source_type.data.map Char.toLower))
  ¬ (s = "exact" ∨ s = "exact match")

/-- The rule-evaluation `data` dict `_negative_search_terms` builds. -/
def negTermData (r : SearchTermRow) : MetricData :=
  [("clicks", pFloat r.clicks), ("orders", pFloat r.orders),
   ("spend", pFloat r.spend), ("sales", pFloat r.sales),
   ("acos", pFloat (if r.sales > 0 then round2 (r.spend / r.sales * 100) else 0)),
   ("cvr", pFloat (if r.clicks > 0 then round2 (r.orders / r.clicks * 100) else 0)),
   ("ctr", pFloat r.ctr), ("cpc", pFloat r.cpc),
   ("impressions", pFloat r.impressions)]

/-- One iteration of `_negative_search_terms`' loop, threading the in-run
`seen` set.  `existing` is the caller-supplied existing-negative key set. -/
def negativeStep (existing : List String) (t : Thresholds)
    (seen : List String) (r : SearchTermRow) : List String × Option Suggestion :=
  if ¬ is_non_exact_source r.source_type then (seen, none)
  else
    let matched := find_matching_rule (negTermData r) (rulesFor t (·.negatives))
    let mtOpt : Option String :=
      match matched with
      | some ru => some (ru.action.match_type.getD "Negative Exact")
      | none =>
          if r.clicks ≥ t.clicks_negative ∧ r.orders = 0 then
            some t.negative_match_type
          else none
    match mtOpt with
    | none => (seen, none)
    | some mt =>
        let key := r.campaign_id ++ "|" ++ norm_kw r.search_term
        if key ∈ existing ∨ key ∈ seen then (seen, none)
        else (seen ++ [key], some
          { category := "Search Term Negatives", severity := "high",
            metrics := [("search_term", .str r.search_term),
                        ("clicks", .num r.clicks), ("spend", .num r.spend),
                        ("source", .str r.source_type), ("cpc", .num r.cpc)],
            actions := [sp_row
              [("Entity", pStr "Campaign Negative Keyword"),
               ("Operation", pStr "Create"),
               ("Campaign ID", pStr r.campaign_id),
               ("Campaign Name", pStr r.campaign_name),
               ("Keyword Text", pStr r.search_term),
               ("Match Type", pStr mt), ("State", pStr "enabled")]] })

/-- The fold of `_negative_search_terms` over the search-term rows. -/
def negativeGo (existing : List String) (t : Thresholds) :
    List String → List SearchTermRow → List String × List Suggestion
| seen, [] => (seen, [])
| seen, r :: rest =>
    match negativeStep existing t seen r with
    | (seen', none) => negativeGo existing t seen' rest
    | (seen', some sug) =>
        let (seenF, out) := negativeGo existing t seen' rest
        (seenF, sug :: out)

/-- `_negative_search_terms(search_terms, existing_negatives, t)`. -/
def negative_search_terms (search_terms : List SearchTermRow)
    (existing : List String) (t : Thresholds) : List Suggestion :=
  (negativeGo existing t [] search_terms).2

/-! ### A) Create exact campaigns (`_create_exact_campaigns`) -/

/-- The lookup tables `generate_suggestions` hands to
`_create_exact_campaigns`, plus the run's start date
(`date.today().strftime("%Y%m%d")`, an environment input). -/
structure ExactCtx where
  camp_by_id : List (String × Campaign) := []
  camp_asin : List (String × String) := []
  camp_sku : List (String × String) := []
  camp_all_skus : List (String × List String) := []
  camp_portfolio_map : List (String × String) := []
  portfolio_by_id : List (String × String) := []
  start_date : String := ""
deriving DecidableEq, Inhabited

/-- `cvr = orders / clicks if clicks else 0`. -/
def exactCvr (r : SearchTermRow) : ℚ :=
  if r.clicks ≠ 0 then r.orders / r.clicks else 0

/-- The rule-evaluation `data` dict `_create_exact_campaigns` builds
(cvr/acos as percentages). -/
def createExactData (r : SearchTermRow) : MetricData :=
  [("orders", pFloat r.orders), ("clicks", pFloat r.clicks),
   ("spend", pFloat r.spend), ("sales", pFloat r.sales),
   ("cvr", pFloat (round2 (exactCvr r * 100))),
   ("acos", pFloat (if r.sales > 0 then round2 (r.spend / r.sales * 100) else 0)),
   ("ctr", pFloat r.ctr), ("cpc", pFloat r.cpc),
   ("impressions", pFloat r.impressions)]

/-- The custom "exact" rule matched for a term, if any. -/
def createExactMatched (t : Thresholds) (r : SearchTermRow) : Option Rule :=
  find_matching_rule (createExactData r) (rulesFor t (·.exact))

/-- The bid multiplier: the matched rule's `action.bid_multiplier`, else the
threshold `bid_multiplier`. -/
def createExactMult (t : Thresholds) (r : SearchTermRow) : ℚ :=
  match createExactMatched t r with
  | some ru => ru.action.bid_multiplier.getD t.bid_multiplier
  | none => t.bid_multiplier

/-- Whether the term passes the gate: a rule match, or by default orders
strictly above `orders_create_exact` and CVR at least `cvr_create_exact`. -/
def createExactGate (t : Thresholds) (r : SearchTermRow) : Bool :=
  match createExactMatched t r with
  | some _ => true
  | none =>
      ¬ decide (r.orders ≤ t.orders_create_exact) ∧
      ¬ decide (exactCvr r < t.cvr_create_exact)

/-- `cpc = round(spend / clicks, 2) if clicks else 0.50`. -/
def exactCpc (r : SearchTermRow) : ℚ :=
  if r.clicks ≠ 0 then round2 (r.spend / r.clicks) else 1/2

/-- `acos = round(spend / sales * 100, 2) if sales else 0`. -/
def exactAcos (r : SearchTermRow) : ℚ :=
  if r.sales ≠ 0 then round2 (r.spend / r.sales * 100) else 0

/-- `suggested_bid = round(cpc * bid_multiplier, 2)`. -/
def suggestedBid (t : Thresholds) (r : SearchTermRow) : ℚ :=
  round2 (exactCpc r * createExactMult t r)

/-- `new_budget = round(max(5, camp_budget * 0.5), 2)` with
`camp_budget = camp_by_id.get(cid, {}).get("daily_budget", 10)`. -/
def exactBudget (ctx : ExactCtx) (r : SearchTermRow) : ℚ :=
  round2 (max 5
    ((((dlookup ctx.camp_by_id r.campaign_id).map (·.daily_budget)).getD 10) * (1/2)))

/-- ASIN resolution: product-ad lookup, else the source row's campaign
name, else the campaign table's name for that campaign. -/
def exactAsin (ctx : ExactCtx) (r : SearchTermRow) : String :=
  let a := (dlookup ctx.camp_asin r.campaign_id).getD ""
  if a ≠ "" then a
  else
    let a2 := extract_asin r.campaign_name
    if a2 ≠ "" then a2
    else extract_asin (((dlookup ctx.camp_by_id r.campaign_id).map (·.name)).getD "")

/-- The new campaign's name, `SP Kw Ex {term[:60]} - {asin}` (no ASIN
suffix when none was resolved); the ad-group name and, per the create-row
linking convention, both identifiers equal it. -/
def exactCampName (ctx : ExactCtx) (r : SearchTermRow) : String :=
  let kw := String.mk (r.search_term.data.take 60)
  let asin := exactAsin ctx r
  if asin ≠ "" then "SP Kw Ex " ++ kw ++ " - " ++ asin
  else "SP Kw Ex " ++ kw

/-- The five action rows of one create-exact suggestion, in source order:
create Campaign, create Ad Group, create Product Ad, create exact Keyword,
create Campaign Negative Keyword in the source campaign. -/
def createExactActions (ctx : ExactCtx) (t : Thresholds) (r : SearchTermRow) :
    List Row :=
  let nm := exactCampName ctx r
  [sp_row
    [("Entity", pStr "Campaign"), ("Operation", pStr "Create"),
     ("Campaign ID", pStr nm), ("Campaign Name", pStr nm),
     ("Portfolio ID", pStr ((dlookup ctx.camp_portfolio_map r.campaign_id).getD "")),
     ("Start Date", pStr ctx.start_date),
     ("Targeting Type", pStr "Manual"), ("State", pStr "enabled"),
     ("Daily Budget", pFloat (exactBudget ctx r)),
     ("Bidding Strategy", pStr "Dynamic bids - down only")],
   sp_row
    [("Entity", pStr "Ad Group"), ("Operation", pStr "Create"),
     ("Campaign ID", pStr nm), ("Ad Group ID", pStr nm),
     ("Campaign Name", pStr nm), ("Ad Group Name", pStr nm),
     ("State", pStr "enabled"),
     ("Ad Group Default Bid", pFloat (suggestedBid t r))],
   sp_row
    [("Entity", pStr "Product Ad"), ("Operation", pStr "Create"),
     ("Campaign ID", pStr nm), ("Ad Group ID", pStr nm),
     ("Campaign Name", pStr nm), ("Ad Group Name", pStr nm),
     ("SKU", pStr ((dlookup ctx.camp_sku r.campaign_id).getD "")),
     ("ASIN", pStr (exactAsin ctx r)), ("State", pStr "enabled")],
   sp_row
    [("Entity", pStr "Keyword"), ("Operation", pStr "Create"),
     ("Campaign ID", pStr nm), ("Ad Group ID", pStr nm),
     ("Campaign Name", pStr nm), ("Ad Group Name", pStr nm),
     ("Keyword Text", pStr r.search_term), ("Match Type", pStr "Exact"),
     ("State", pStr "enabled"), ("Bid", pFloat (suggestedBid t r))],
   sp_row
    [("Entity", pStr "Campaign Negative Keyword"), ("Operation", pStr "Create"),
     ("Campaign ID", pStr r.campaign_id),
     ("Campaign Name", pStr r.campaign_name),
     ("Keyword Text", pStr r.search_term),
     ("Match Type", pStr "Negative Exact"), ("State", pStr "enabled")]]

/-- The metrics payload of one create-exact suggestion. -/
def createExactMetrics (ctx : ExactCtx) (t : Thresholds) (r : SearchTermRow) :
    List (String × MVal) :=
  [("search_term", .str r.search_term), ("orders", .num r.orders),
   ("clicks", .num r.clicks),
   ("cvr", .num ((roundHalfEven (exactCvr r * 100 * 10) : ℚ) / 10)),
   ("acos", .num (exactAcos r)), ("spend", .num r.spend),
   ("sales", .num r.sales), ("suggested_bid", .num (suggestedBid t r)),
   ("asin", .str (exactAsin ctx r)),
   ("sku", .str ((dlookup ctx.camp_sku r.campaign_id).getD "")),
   ("available_skus", .strList ((dlookup ctx.camp_all_skus r.campaign_id).getD [])),
   ("source_portfolio_id",
    .str ((dlookup ctx.camp_portfolio_map r.campaign_id).getD "")),
   ("source_portfolio_name",
    .str ((dlookup ctx.portfolio_by_id
      ((dlookup ctx.camp_portfolio_map r.campaign_id).getD "")).getD "")),
   ("amazon_url",
    .str ("https://www.amazon.com/s?k=" ++ r.search_term.replace " " "+"))]

/-- One iteration of `_create_exact_campaigns`' loop, threading the
known-exact set: skip exact sources, evaluate the rule/default gate, skip
empty or already-known normalized terms, else mark the term known and emit
the five-row suggestion. -/
def createExactStep (ctx : ExactCtx) (t : Thresholds) (existing : List String)
    (r : SearchTermRow) : List String × Option Suggestion :=
  if ¬ is_non_exact_source r.source_type then (existing, none)
  else if ¬ createExactGate t r then (existing, none)
  else
    let term_norm := norm_kw r.search_term
    if term_norm = "" then (existing, none)
    else if term_norm ∈ existing then (existing, none)
    else (existing ++ [term_norm], some
      { category := "Create Exact Campaign", severity := "medium",
        metrics := createExactMetrics ctx t r,
        actions := createExactActions ctx t r })

/-- The fold of `_create_exact_campaigns` over the search-term rows. -/
def createExactGo (ctx : ExactCtx) (t : Thresholds) :
    List String → List SearchTermRow → List String × List Suggestion
| existing, [] => (existing, [])
| existing, r :: rest =>
    match createExactStep ctx t existing r with
    | (existing', none) => createExactGo ctx t existing' rest
    | (existing', some sug) =>
        let (exF, out) := createExactGo ctx t existing' rest
        (exF, sug :: out)

/-- `_create_exact_campaigns(...)`: the suggestions and the final state of
the (mutated) known-exact set. -/
def create_exact_campaigns (ctx : ExactCtx) (t : Thresholds)
    (existing : List String) (search_terms : List SearchTermRow) :
    List String × List Suggestion :=
  createExactGo ctx t existing search_terms

/-- The search term a create-exact suggestion was emitted for (its
`metrics["search_term"]`). -/
def sugTerm (s : Suggestion) : String :=
  match mGet s.metrics "search_term" with
  | some (.str x) => x
  | _ => ""

/-- Python `round(q, 1)` on the exact rational. -/
def round1 (q : ℚ) : ℚ := (roundHalfEven (q * 10) : ℚ) / 10

/-! ### Shared helpers of E) and F) -/

/-- `camp_by_id = {c["campaign_id"]: c}` (later duplicates overwrite). -/
def campById (campaigns : List Campaign) : List (String × Campaign) :=
  campaigns.foldl (fun m c => dset m c.campaign_id c) []

/-- Group placements by campaign in insertion order
(`plc_by_camp[p["campaign_id"]].append(p)`). -/
def plcByCamp (placements : List Placement) : List (String × List Placement) :=
  placements.foldl (fun m p => dappend m p.campaign_id p) []

/-- Python `min(l, key=key, default=None)`: the first element with the
strictly smallest key. -/
def pyMinBy {α : Type} (key : α → ℚ) (l : List α) : Option α :=
  l.foldl (fun acc x =>
    match acc with
    | none => some x
    | some b => if key x < key b then some x else acc) none

/-- The Keyword / Product Targeting bid-update row both `_optimize_placements`
and `_increase_bids` emit per active target. -/
def targetBidRow (cid campName : String) (bid : ℚ) (tg : Target) : Row :=
  sp_row
    [("Entity", pStr tg.entity), ("Operation", pStr "Update"),
     ("Campaign ID", pStr cid), ("Ad Group ID", pStr tg.ad_group_id),
     ("Campaign Name", pStr campName), ("Ad Group Name", pStr tg.ad_group_name),
     ("Bid", pFloat bid), ("State", pStr "enabled")] ++
  (if tg.entity = "Keyword" then
    [("Keyword ID", pStr tg.keyword_id),
     ("Keyword Text", pStr tg.keyword_text),
     ("Match Type", pStr tg.match_type)]
  else
    [("Product Targeting ID", pStr tg.product_targeting_id),
     ("Product Targeting Expression", pStr tg.product_targeting_expression)])

/-! ### E) Placement optimization (`_optimize_placements`) -/

/-- The rule-evaluation `data` dict `_optimize_placements` builds per
placement (`p["acos"] if p["acos"] else 0` is the identity on exact
rationals and is written plainly). -/
def placementData (p : Placement) : MetricData :=
  [("acos", pFloat p.acos), ("spend", pFloat p.spend), ("sales", pFloat p.sales),
   ("clicks", pFloat p.clicks), ("orders", pFloat p.orders),
   ("impressions", pFloat p.impressions),
   ("percentage", pInt (pytrunc p.percentage)),
   ("cvr", pFloat p.cvr), ("ctr", pFloat p.ctr), ("cpc", pFloat p.cpc)]

/-- One step of the effective/ineffective classification: skip zero-spend
placements; a custom "placement" rule match with nonzero allocation (or, by
default, ACOS fraction above `acos_ineffective` with nonzero allocation) is
ineffective; a default non-match is effective. -/
def classifyStep (t : Thresholds)
    (acc : List Placement × List (Placement × Option Rule)) (p : Placement) :
    List Placement × List (Placement × Option Rule) :=
  if p.spend ≤ 0 then acc
  else
    match find_matching_rule (placementData p) (rulesFor t (·.placement)) with
    | some ru =>
        if pytrunc p.percentage > 0 then (acc.1, acc.2 ++ [(p, some ru)]) else acc
    | none =>
        let acosFrac := if p.acos ≠ 0 then p.acos / 100 else 0
        if acosFrac > t.acos_ineffective then
          if pytrunc p.percentage > 0 then (acc.1, acc.2 ++ [(p, none)]) else acc
        else (acc.1 ++ [p], acc.2)

/-- `ineffective_map = {p["placement"]: (p, rule) for p, rule in ineffective}`
(later duplicates overwrite). -/
def ineffMap (ineff : List (Placement × Option Rule)) :
    List (String × (Placement × Option Rule)) :=
  ineff.foldl (fun m pr => dset m pr.1.placement pr) []

/-- The new percentage `_optimize_placements` computes for a placement: from
the matched rule's action for an ineffective placement (`set_percentage` ⇒
its value truncated to int, any other action type ⇒ 0; no rule ⇒ 0), the
rebalanced `new_best_pct` for the best placement, else unchanged. -/
def optNewPct (ineffM : List (String × (Placement × Option Rule)))
    (best : Option Placement) (newBestPct : ℚ) (p : Placement) : ℚ :=
  match dlookup ineffM p.placement with
  | some (_, some ru) =>
      if (ru.action.type.getD "set_percentage") = "set_percentage" then
        (pytrunc (ru.action.value.getD 0) : ℚ)
      else 0
  | some (_, none) => 0
  | none =>
      match best with
      | some b => if p.placement = b.placement then newBestPct
                  else (pytrunc p.percentage : ℚ)
      | none => (pytrunc p.percentage : ℚ)

/-- The Bidding Adjustment row for one placement, emitted only when the new
percentage differs from the current (`int`-truncated) one. -/
def optPlacementRowFor (cid campName : String)
    (ineffM : List (String × (Placement × Option Rule)))
    (best : Option Placement) (newBestPct : ℚ) (p : Placement) : Option Row :=
  let oldPct := pytrunc p.percentage
  let newPct := optNewPct ineffM best newBestPct p
  if newPct ≠ (oldPct : ℚ) then
    some (sp_row
      [("Entity", pStr "Bidding Adjustment"), ("Operation", pStr "Update"),
       ("Campaign ID", pStr cid), ("Campaign Name", pStr campName),
       ("Placement", pStr p.placement), ("Percentage", pFloat newPct)])
  else none

/-- The effective placements of one campaign's breakdown. -/
def optEffective (t : Thresholds) (cps : List Placement) : List Placement :=
  (cps.foldl (classifyStep t) ([], [])).1

/-- The ineffective placements (with their matched rules). -/
def optIneffective (t : Thresholds) (cps : List Placement) :
    List (Placement × Option Rule) :=
  (cps.foldl (classifyStep t) ([], [])).2

/-- The best placement: lowest ACOS among the effective ones. -/
def optBest (t : Thresholds) (cps : List Placement) : Option Placement :=
  pyMinBy (fun x => if x.acos > 0 then x.acos else 9999) (optEffective t cps)

/-- `best_pct = best["percentage"] if best else 0`. -/
def optBestPct (t : Thresholds) (cps : List Placement) : ℚ :=
  match optBest t cps with
  | some b => b.percentage
  | none => 0

/-- `base_bid = round(camp_cpc / (1 + best_pct/100), 2)` (guarding a
non-positive factor). -/
def optBaseBid (t : Thresholds) (cps : List Placement) (cpc : ℚ) : ℚ :=
  if 1 + optBestPct t cps / 100 > 0 then round2 (cpc / (1 + optBestPct t cps / 100))
  else cpc

/-- `new_base = max(0.02, round(base_bid * reduction, 2))`. -/
def optNewBase (t : Thresholds) (cps : List Placement) (cpc : ℚ) : ℚ :=
  if round2 (optBaseBid t cps cpc * t.bid_reduction) < 2/100 then 2/100
  else round2 (optBaseBid t cps cpc * t.bid_reduction)

/-- `desired_factor = old_effective / new_base` (old effective CPC at the
best placement preserved). -/
def optDesiredFactor (t : Thresholds) (cps : List Placement) (cpc : ℚ) : ℚ :=
  if optNewBase t cps cpc > 0 then
    optBaseBid t cps cpc * (1 + optBestPct t cps / 100) / optNewBase t cps cpc
  else 1

/-- `new_best_pct = min(round((desired_factor - 1) * 100), max_placement_pct)`. -/
def optNewBestPct (t : Thresholds) (cps : List Placement) (cpc : ℚ) : ℚ :=
  min ((roundHalfEven ((optDesiredFactor t cps cpc - 1) * 100)) : ℚ)
    t.max_placement_pct

/-- `bid_ratio = new_base / base_bid if base_bid > 0 else 1`. -/
def optBidScale (t : Thresholds) (cps : List Placement) (cpc : ℚ) : ℚ :=
  if optBaseBid t cps cpc > 0 then optNewBase t cps cpc / optBaseBid t cps cpc
  else 1

/-- The Keyword / Product Targeting bid-update rows of
`_optimize_placements` (each new bid floored at 0.02). -/
def optTargetRows (tbc : List (String × List Target)) (t : Thresholds)
    (cid campName : String) (cpc : ℚ) (cps : List Placement) : List Row :=
  ((dlookup tbc cid).getD []).map (fun tg =>
    targetBidRow cid campName
      (if round2 (tg.bid * optBidScale t cps cpc) < 2/100 then 2/100
       else round2 (tg.bid * optBidScale t cps cpc)) tg)

/-- The Bidding Adjustment rows of `_optimize_placements`. -/
def optPlacementRows (t : Thresholds) (cid campName : String) (cpc : ℚ)
    (cps : List Placement) : List Row :=
  cps.filterMap (optPlacementRowFor cid campName (ineffMap (optIneffective t cps))
    (optBest t cps) (optNewBestPct t cps cpc))

/-- All action rows of one placement-optimization suggestion. -/
def optActions (tbc : List (String × List Target)) (t : Thresholds)
    (cid campName : String) (cpc : ℚ) (cps : List Placement) : List Row :=
  optTargetRows tbc t cid campName cpc cps ++ optPlacementRows t cid campName cpc cps

/-- `_optimize_placements`' per-campaign body: classify, pick the best
effective placement, halve the base bid (floored at 0.02), rebalance the
best placement to preserve the realized effective CPC (capped at
`max_placement_pct`), scale every active target's bid, and emit the
non-no-op placement rows; suppress the suggestion when no row results. -/
def optimizeCampaign (cbid : List (String × Campaign))
    (tbc : List (String × List Target)) (t : Thresholds)
    (cid : String) (cps : List Placement) : Option Suggestion :=
  match dlookup cbid cid with
  | none => none
  | some camp =>
      if camp.spend < 5 then none
      else if optIneffective t cps = [] then none
      else if camp.cpc ≤ 0 then none
      else if optActions tbc t cid camp.name camp.cpc cps = [] then none
      else some
        { category := "Placement Optimization", severity := "medium",
          metrics := [("campaign_spend", .num camp.spend),
                      ("campaign_acos", .num camp.acos),
                      ("ineffective_placements", .num (optIneffective t cps).length),
                      ("new_base_bid", .num (optNewBase t cps camp.cpc))],
          actions := optActions tbc t cid camp.name camp.cpc cps }

/-- `_optimize_placements(campaigns, placements, targets_by_camp, t)`. -/
def optimize_placements (campaigns : List Campaign) (placements : List Placement)
    (targets_by_camp : List (String × List Target)) (t : Thresholds) :
    List Suggestion :=
  (plcByCamp placements).filterMap (fun g =>
    optimizeCampaign (campById campaigns) targets_by_camp t g.1 g.2)

/-! ### F) Increase bids (`_increase_bids`) -/

/-- `cvr = orders / clicks if clicks > 0 else 0`. -/
def increaseCvr (c : Campaign) : ℚ :=
  if c.clicks > 0 then c.orders / c.clicks else 0

/-- `acos_frac = spend / sales if sales > 0 else 1`. -/
def increaseAcosFrac (c : Campaign) : ℚ :=
  if c.sales > 0 then c.spend / c.sales else 1

/-- The rule-evaluation `data` dict `_increase_bids` builds per campaign. -/
def increaseData (c : Campaign) : MetricData :=
  [("clicks", pFloat c.clicks), ("orders", pFloat c.orders),
   ("spend", pFloat c.spend), ("sales", pFloat c.sales),
   ("cvr", pFloat (round2 (increaseCvr c * 100))),
   ("acos", pFloat (round2 (increaseAcosFrac c * 100))),
   ("ctr", pFloat c.ctr), ("cpc", pFloat c.cpc),
   ("impressions", pFloat c.impressions), ("roas", pFloat c.roas)]

/-- The custom "bids" rule matched for a campaign, if any. -/
def increaseMatched (t : Thresholds) (c : Campaign) : Option Rule :=
  find_matching_rule (increaseData c) (rulesFor t (·.bids))

/-- The step fraction: the matched rule's `action.step` (a percentage,
default 15) over 100, else the threshold `bid_increase_step`. -/
def increaseStepOf (t : Thresholds) (c : Campaign) : ℚ :=
  match increaseMatched t c with
  | some ru => (ru.action.step.getD 15) / 100
  | none => t.bid_increase_step

/-- Whether the campaign passes the gate: a rule match, or by default
clicks/orders at thresholds, CVR at least `cvr_bid_increase` and ACOS at
most `acos_bid_increase`. -/
def increaseGate (t : Thresholds) (c : Campaign) : Bool :=
  match increaseMatched t c with
  | some _ => true
  | none =>
      ¬ decide (c.clicks < t.clicks_bid_increase ∨ c.orders < t.orders_bid_increase) ∧
      ¬ decide (increaseCvr c < t.cvr_bid_increase ∨
                increaseAcosFrac c > t.acos_bid_increase)

/-- `aov = sales / orders if orders else 0`. -/
def increaseAov (c : Campaign) : ℚ :=
  if c.orders ≠ 0 then c.sales / c.orders else 0

/-- `max_cpc = t["acos_target_increase"] * cvr * aov`. -/
def increaseMaxCpc (t : Thresholds) (c : Campaign) : ℚ :=
  t.acos_target_increase * increaseCvr c * increaseAov c

/-- `new_cpc = round(min(cpc * (1 + step), max_cpc), 2)`. -/
def increaseNewCpc (t : Thresholds) (c : Campaign) : ℚ :=
  round2 (min (c.cpc * (1 + increaseStepOf t c)) (increaseMaxCpc t c))

/-- `bid_ratio = new_cpc / cpc if cpc > 0 else 1`. -/
def increaseBidScale (t : Thresholds) (c : Campaign) : ℚ :=
  if c.cpc > 0 then increaseNewCpc t c / c.cpc else 1

/-- The Keyword / Product Targeting bid-update rows of `_increase_bids`. -/
def increaseTargetRows (tbc : List (String × List Target)) (t : Thresholds)
    (c : Campaign) : List Row :=
  ((dlookup tbc c.campaign_id).getD []).map (fun tg =>
    targetBidRow c.campaign_id c.name (round2 (tg.bid * increaseBidScale t c)) tg)

/-- The boosted percentage for the best placement:
`min(round((new_cpc/cpc · (1 + pct/100) − 1) · 100), max_placement_pct)`. -/
def increaseNewPct (t : Thresholds) (c : Campaign) (best : Placement) : ℚ :=
  min ((roundHalfEven ((increaseNewCpc t c / c.cpc * (1 + best.percentage / 100) - 1)
    * 100)) : ℚ) t.max_placement_pct

/-- The Bidding Adjustment row `_increase_bids` emits for the best
placement. -/
def increaseAdjRow (t : Thresholds) (c : Campaign) (best : Placement) : Row :=
  sp_row
    [("Entity", pStr "Bidding Adjustment"), ("Operation", pStr "Update"),
     ("Campaign ID", pStr c.campaign_id), ("Campaign Name", pStr c.name),
     ("Placement", pStr best.placement),
     ("Percentage", pFloat (increaseNewPct t c best))]

/-- The (at most one) Bidding Adjustment row of `_increase_bids`: boost the
best placement proportionally, capped, emitted only if the value changes. -/
def increasePlacementRows (plc : List (String × List Placement))
    (t : Thresholds) (c : Campaign) : List Row :=
  if (dlookup plc c.campaign_id).getD [] = [] then []
  else
    match pyMinBy (fun x => if x.acos > 0 then x.acos else 9999)
        (((dlookup plc c.campaign_id).getD []).filter (fun p => p.spend > 0)) with
    | none => []
    | some best =>
        if increaseNewPct t c best ≠ (pytrunc best.percentage : ℚ) then
          [increaseAdjRow t c best]
        else []

/-- All action rows of one increase-bids suggestion. -/
def increaseBidsActions (plc : List (String × List Placement))
    (tbc : List (String × List Target)) (t : Thresholds) (c : Campaign) : List Row :=
  increaseTargetRows tbc t c ++ increasePlacementRows plc t c

/-- The metrics payload of one increase-bids suggestion. -/
def increaseBidsMetrics (t : Thresholds) (c : Campaign) : List (String × MVal) :=
  [("cvr", .num (round1 (increaseCvr c * 100))),
   ("acos", .num (round1 (increaseAcosFrac c * 100))),
   ("orders", .num c.orders), ("spend", .num c.spend),
   ("sales", .num c.sales), ("current_cpc", .num c.cpc),
   ("suggested_cpc", .num (increaseNewCpc t c)),
   ("max_cpc", .num (round2 (increaseMaxCpc t c)))]

/-- `_increase_bids`' per-campaign body: positive sales, gate, positive
current CPC, current CPC strictly below the ceiling `max_cpc`; then scale
every active target's bid by `new_cpc / cpc` and proportionally boost the
best placement's percentage (only when the value changes). -/
def increaseBidsCampaign (plc : List (String × List Placement))
    (tbc : List (String × List Target)) (t : Thresholds)
    (c : Campaign) : Option Suggestion :=
  if c.sales ≤ 0 then none
  else if ¬ increaseGate t c then none
  else if c.cpc ≤ 0 then none
  else if increaseMaxCpc t c ≤ c.cpc then none
  else if increaseBidsActions plc tbc t c = [] then none
  else some
    { category := "Increase Bids", severity := "low",
      metrics := increaseBidsMetrics t c,
      actions := increaseBidsActions plc tbc t c }

/-- `_increase_bids(campaigns, placements, targets_by_camp, t)`. -/
def increase_bids (campaigns : List Campaign) (placements : List Placement)
    (targets_by_camp : List (String × List Target)) (t : Thresholds) :
    List Suggestion :=
  campaigns.filterMap (increaseBidsCampaign (plcByCamp placements) targets_by_camp t)

/-! ### Bulk serializer (`build_bulk_xlsx`)

The byte-level xlsx encoding (openpyxl) is external I/O; what is modelled
is the worksheet content the source computes: the header row and one row of
cells per action, over the fixed column list. -/

/-- The fixed bulk-file column order (`BULK_COLS`). -/
def BULK_COLS : List String :=
  ["Product", "Entity", "Operation",
   "Campaign ID", "Ad Group ID", "Portfolio ID",
   "Ad ID", "Keyword ID", "Product Targeting ID",
   "Campaign Name", "Ad Group Name",
   "Start Date", "End Date",
   "Targeting Type", "State",
   "Daily Budget", "SKU", "ASIN",
   "Ad Group Default Bid", "Bid",
   "Keyword Text", "Match Type",
   "Bidding Strategy", "Placement", "Percentage",
   "Product Targeting Expression"]

/-- A worksheet cell: a number or a string. -/
inductive Cell where
| num (q : ℚ)
| str (s : String)
deriving DecidableEq, Inhabited, Repr

/-- The cell written for a value: `isinstance(val, (int, float))` keeps it a
number (a Python `bool` is a subclass of `int`), anything else is
`str(val)`.  (`pNone` cannot reach this point — it was coalesced to `""` —
and translates to `str(None)`.) -/
def cellOf : PVal → Cell
| pInt n => .num n
| pFloat q => .num q
| pBool b => .num (if b then 1 else 0)
| pStr s => .str s
| pNone => .str "None"

/-- The row dict built per action: `{col: action.get(col, "")}` over
`BULK_COLS`, with `None` coalesced to `""`. -/
def buildRowDict (action : Row) : Row :=
  BULK_COLS.map (fun col =>
    (col,
     let v := (rowGet action col).getD (pStr "")
     if v = pNone then pStr "" else v))

/-- `if not row["Product"]: row["Product"] = "Sponsored Products"`. -/
def applyProductDefault (row : Row) : Row :=
  if ¬ pyTruthy ((rowGet row "Product").getD (pStr "")) then
    dset row "Product" (pStr "Sponsored Products")
  else row

/-- The serializer's flattening loop:
`for sug in selected: for action in sug.get("actions", []): rows.append(...)`. -/
def build_bulk_rows (sugs : List Suggestion) : List Row :=
  sugs.foldl (fun acc sug =>
    acc ++ sug.actions.map (fun a => applyProductDefault (buildRowDict a))) []

/-- One action rendered to its line of cells (specification-side form used
to characterize the loop). -/
def renderAction (a : Row) : List Cell :=
  BULK_COLS.map (fun col =>
    cellOf ((rowGet (applyProductDefault (buildRowDict a)) col).getD (pStr "")))

/-- The worksheet grid `build_bulk_xlsx` writes: the styled header row, then
per data row one cell per column (`row_data.get(col_name, "")`, numbers
kept, everything else stringified). -/
def build_bulk_xlsx (sugs : List Suggestion) : List (List Cell) :=
  (BULK_COLS.map Cell.str) ::
  (build_bulk_rows sugs).map (fun row =>
    BULK_COLS.map (fun col => cellOf ((rowGet row col).getD (pStr ""))))

/-! ### Orchestrator (`generate_suggestions`) -/

/-- The analysis snapshot (`fast_analysis.analyze_bulk_file()` output), the
slices the suggestions engine reads. -/
structure Analysis where
  campaigns_table : List Campaign := []
  targets : List Target := []
  placements : List Placement := []
  search_terms_detail : List SearchTermRow := []
  existing_exact_keywords : List String := []
  existing_negatives : List String := []
  product_ads : List ProductAd := []
  portfolios : List PortfolioEntry := []
deriving DecidableEq, Inhabited

/-- The mutable state of one `generate_suggestions` run, made explicit: the
caller's analysis record and the two dedup sets the run builds locally
(`existing_exact = set(_norm_kw(k) for k in ...)`,
`existing_negatives = set(...)`).  The generators write only the two set
fields. -/
structure GenState where
  analysis : Analysis
  existing_exact : List String
  existing_negatives : List String
deriving DecidableEq, Inhabited

/-- `camp_asin`: first product ad with an ASIN wins per campaign. -/
def campAsinOf (pas : List ProductAd) : List (String × String) :=
  pas.foldl (fun m pa =>
    if pa.asin ≠ "" ∧ (dlookup m pa.campaign_id).isNone then
      m ++ [(pa.campaign_id, pa.asin)]
    else m) []

/-- `camp_sku`: first product ad with a SKU wins per campaign. -/
def campSkuOf (pas : List ProductAd) : List (String × String) :=
  pas.foldl (fun m pa =>
    if pa.sku ≠ "" ∧ (dlookup m pa.campaign_id).isNone then
      m ++ [(pa.campaign_id, pa.sku)]
    else m) []

/-- `camp_all_skus`: every distinct SKU per campaign, in order. -/
def campAllSkusOf (pas : List ProductAd) : List (String × List String) :=
  pas.foldl (fun m pa =>
    if pa.sku ≠ "" ∧ pa.sku ∉ (dlookup m pa.campaign_id).getD [] then
      dappend m pa.campaign_id pa.sku
    else m) []

/-- `portfolio_by_id = {str(p["portfolio_id"]): p["name"]}`. -/
def portfolioById (ps : List PortfolioEntry) : List (String × String) :=
  ps.foldl (fun m p => dset m p.portfolio_id p.name) []

/-- `camp_portfolio`: campaign ↦ portfolio id, for campaigns that have one. -/
def campPortfolioOf (campaigns : List Campaign) : List (String × String) :=
  campaigns.foldl (fun m c =>
    if c.portfolio_id ≠ "" then dset m c.campaign_id c.portfolio_id else m) []

/-- `targets_per_campaign`: how many target rows (of any state) each
campaign has. -/
def countTargets (targets : List Target) (cid : String) : ℕ :=
  (targets.filter (fun tg => tg.campaign_id == cid)).length

/-- `targets_by_camp`: enabled, positive-bid targets grouped by campaign. -/
def targetsByCamp (targets : List Target) : List (String × List Target) :=
  targets.foldl (fun m tg =>
    if String.mk (tg.state.data.map Char.toLower) = "enabled" ∧ tg.bid > 0 then
      dappend m tg.campaign_id tg
    else m) []

/-- `generate_suggestions(analysis, thresholds)`: build the lookup tables
and the two local dedup sets, run the six generators A–F in order, and
concatenate.  `t` is the already-merged threshold record and `start_date`
the run date (environment input).  The returned `GenState` is the run's
final mutable state. -/
def generate_suggestions (analysis : Analysis) (t : Thresholds)
    (start_date : String) : List Suggestion × GenState :=
  let existing_exact := analysis.existing_exact_keywords.map norm_kw
  let existing_negatives := analysis.existing_negatives
  let campaigns := analysis.campaigns_table
  let ctx : ExactCtx :=
    { camp_by_id := campById campaigns,
      camp_asin := campAsinOf analysis.product_ads,
      camp_sku := campSkuOf analysis.product_ads,
      camp_all_skus := campAllSkusOf analysis.product_ads,
      camp_portfolio_map := campPortfolioOf campaigns,
      portfolio_by_id := portfolioById analysis.portfolios,
      start_date := start_date }
  let resA := create_exact_campaigns ctx t existing_exact analysis.search_terms_detail
  let sugsB := negative_search_terms analysis.search_terms_detail existing_negatives t
  let sugsC := pause_campaigns campaigns t
  let sugsD := pause_targets analysis.targets (countTargets analysis.targets) t
  let tbc := targetsByCamp analysis.targets
  let sugsE := optimize_placements campaigns analysis.placements tbc t
  let sugsF := increase_bids campaigns analysis.placements tbc t
  (resA.2 ++ sugsB ++ sugsC ++ sugsD ++ sugsE ++ sugsF,
   { analysis := analysis, existing_exact := resA.1,
     existing_negatives := existing_negatives })

/-- Follows the spec's words ("the owning campaign currently has at most
one active target"): the number of enabled targets of a campaign.  Used
only to compare the specified behavior with `countTargets`, the count the
code actually uses. -/
def activeTargetCount (targets : List Target) (cid : String) : ℕ :=
  (targets.filter (fun tg =>
    tg.campaign_id == cid && String.mk (tg.state.data.map Char.toLower) == "enabled")).length

/-! ### Concrete sample inputs (used by counterexamples and witnesses) -/

/-- A campaign with spend 50 and CPC 1.00. -/
def campC1 : Campaign := { campaign_id := "100", name := "C1", spend := 50, cpc := 1 }

/-- Effective placement: 100 %, ACOS 25 %. -/
def plC1a : Placement :=
  { campaign_id := "100", placement := "Placement Top", percentage := 100,
    spend := 30, sales := 120, clicks := 30, acos := 25 }

/-- Ineffective placement: 50 %, ACOS 50 %. -/
def plC1b : Placement :=
  { campaign_id := "100", placement := "Placement Rest Of Search", percentage := 50,
    spend := 20, sales := 40, clicks := 20, acos := 50 }

/-- An enabled keyword at the minimum bid 0.02. -/
def tgtC1 : Target :=
  { entity := "Keyword", campaign_id := "100", ad_group_id := "200",
    ad_group_name := "AG1", keyword_text := "kw1", match_type := "Broad",
    bid := 1/50, state := "enabled" }

/-- A second campaign with one ineffective placement and no targets. -/
def campC1w : Campaign := { campaign_id := "200", name := "C2", spend := 50, cpc := 1 }

/-- Its single (ineffective) placement at 50 %. -/
def plC1w : Placement :=
  { campaign_id := "200", placement := "Placement Top", percentage := 50,
    spend := 20, sales := 40, clicks := 20, acos := 50 }

/-- An enabled keyword that qualifies for pausing (spend 15, no orders). -/
def tgtC2a : Target :=
  { entity := "Keyword", campaign_id := "100", campaign_name := "C1",
    ad_group_id := "200", keyword_text := "test kw", match_type := "Broad",
    bid := 1/2, state := "enabled", clicks := 30, spend := 15 }

/-- A paused sibling target in the same campaign. -/
def tgtC2b : Target :=
  { entity := "Keyword", campaign_id := "100", campaign_name := "C1",
    keyword_text := "other kw", state := "paused" }

/-- An analysis whose campaign has two targets, one enabled and one paused. -/
def analysisC2 : Analysis := { targets := [tgtC2a, tgtC2b] }

/-- A strong campaign whose CPC ceiling `0.25·CVR·AOV = 0.556` is not a
representable cent amount (sales 22.24, 10 clicks, 4 orders, CPC 0.50). -/
def cC3 : Campaign :=
  { campaign_id := "100", name := "C1", clicks := 10, orders := 4,
    spend := 2, sales := 556/25, cpc := 1/2 }

/-- An enabled keyword of that campaign. -/
def tgtC3 : Target :=
  { entity := "Keyword", campaign_id := "100", ad_group_id := "200",
    keyword_text := "kw1", match_type := "Exact", bid := 1/2, state := "enabled" }

/-- A strong campaign with a cent-exact new CPC (0.40 → 0.46). -/
def cC3w : Campaign :=
  { campaign_id := "100", name := "C1", clicks := 100, orders := 50,
    spend := 50, sales := 500, cpc := 2/5 }

/-- A wasting search term (15 clicks, no orders). -/
def stC4 : SearchTermRow :=
  { search_term := "bad term", campaign_id := "100", campaign_name := "C1",
    clicks := 15, orders := 0, spend := 20, sales := 0, source_type := "broad" }

/-- The spec's create-exact scenario term: "great keyword", 20 clicks,
5 orders, spend 10, sales 100, via broad. -/
def stC8 : SearchTermRow :=
  { search_term := "great keyword", campaign_id := "100", campaign_name := "C1",
    clicks := 20, orders := 5, spend := 10, sales := 100, source_type := "broad" }

/-- The source campaign of the scenario. -/
def campC8 : Campaign := { campaign_id := "100", name := "C1", daily_budget := 10 }

/-- Lookup tables for the scenario (ASIN and SKUs resolved). -/
def ctxC8 : ExactCtx :=
  { camp_by_id := [("100", campC8)], camp_asin := [("100", "B0TEST1234")],
    camp_sku := [("100", "SKU-TEST-01")],
    camp_all_skus := [("100", ["SKU-TEST-01", "SKU-TEST-02"])],
    start_date := "20260101" }

/-- An analysis carrying the scenario campaign and term. -/
def analysisC8 : Analysis :=
  { campaigns_table := [campC8], search_terms_detail := [stC8] }

/-- A source campaign with daily budget 10.01 (half of it, 5.005, is not a
cent amount). -/
def campC8b : Campaign := { campaign_id := "100", name := "C1", daily_budget := 1001/100 }

/-- Context for the rounding counterexample. -/
def ctxC8b : ExactCtx := { camp_by_id := [("100", campC8b)], start_date := "20260101" }

/-- A qualifying term with 3 clicks, so CPC 10/3 is not a cent amount. -/
def stC8b : SearchTermRow :=
  { search_term := "great keyword", campaign_id := "100", campaign_name := "C1",
    clicks := 3, orders := 3, spend := 10, sales := 100, source_type := "broad" }

/-- A disabled rule that would otherwise always match. -/
def ruleDisabled : Rule :=
  { enabled := some false,
    conditions := [{ metric := "clicks", op := ">=", value := pInt 0 }] }

/-- An enabled two-condition rule. -/
def ruleGood : Rule :=
  { enabled := some true,
    conditions := [{ metric := "clicks", op := ">=", value := pInt 3 },
                   { metric := "orders", op := "==", value := pInt 0 }] }

/-- A metric snapshot matching `ruleGood` (5 clicks, 0 orders). -/
def dataC7 : MetricData := [("clicks", pFloat 5), ("orders", pFloat 0)]

/-- An action row without a `Product` column. -/
def rowC9 : Row := [("Entity", pStr "Campaign"), ("Operation", pStr "Update")]

/-- A one-suggestion list for the serializer. -/
def sugsC9 : List Suggestion :=
  [{ category := "Pause Campaigns", severity := "high", actions := [rowC9] }]

/-- An analysis with one existing exact keyword (unnormalized spelling). -/
def analysisC10 : Analysis := { existing_exact_keywords := ["Foo  Bar"] }

/-! ## Theorems -/

/-- `find?` returns the first satisfying element: everything before it in
the list fails the predicate. -/
theorem findFirstSpec {α : Type} (p : α → Bool) (l : List α) (a : α)
    (h : l.find? p = some a) :
    ∃ l1 l2, l = l1 ++ a :: l2 ∧ ∀ x ∈ l1, p x = false := by
  induction l with
  | nil => simp [List.find?] at h
  | cons b rest ih =>
      by_cases hb : p b = true
      · rw [List.find?_cons_of_pos _ hb] at h
        exact ⟨[], rest, by simpa using h, by simp⟩
      · rw [List.find?_cons_of_neg _ hb] at h
        obtain ⟨l1, l2, hl, hfail⟩ := ih h
        refine ⟨b :: l1, l2, by simp [hl], ?_⟩
        intro x hx
        rcases List.mem_cons.mp hx with hx | hx
        · subst hx; simpa using hb
        · exact hfail x hx

/-- Characterization of `evaluate_rule`: true exactly when the rule is not
disabled, has a nonempty conditions list, and every condition holds. -/
theorem evaluate_rule_iff (data : MetricData) (r : Rule) :
    evaluate_rule data r = true ↔
      (r.enabled ≠ some false ∧ r.conditions ≠ [] ∧
       ∀ cc ∈ r.conditions, evaluate_condition data cc = true) := by
  unfold evaluate_rule
  rcases r with ⟨en, conds, act⟩
  simp only
  constructor
  · intro h
    split at h
    · exact absurd h (by simp)
    · split at h
      · exact absurd h (by simp)
      · rename_i hen hne
        refine ⟨?_, ?_, ?_⟩
        · cases en with
          | none => simp
          | some b =>
              cases b with
              | true => simp
              | false => simp [Option.getD] at hen
        · simpa [List.isEmpty_iff] using hne
        · simpa [List.all_eq_true] using h
  · rintro ⟨hen, hne, hall⟩
    have hgd : en.getD true = true := by
      cases en with
      | none => rfl
      | some b =>
          cases b with
          | true => rfl
          | false => exact absurd rfl hen
    rw [if_neg (by simp [hgd]), if_neg (by simp [List.isEmpty_iff, hne])]
    simpa [List.all_eq_true] using hall

/-- C7: `findMatchingRule` returns the first rule in list order that
evaluates true (never a disabled rule, never one with an empty conditions
list), returns none iff no rule evaluates true, and a rule evaluates true
iff it is not disabled, has a nonempty conditions list, and every one of
its conditions evaluates true. -/
theorem C7_find_matching_rule_first_enabled_match
    (data : MetricData) (rules : List Rule) :
    (∀ r, find_matching_rule data rules = some r →
       evaluate_rule data r = true ∧ r.enabled ≠ some false ∧
       r.conditions ≠ [] ∧
       ∃ l1 l2, rules = l1 ++ r :: l2 ∧
         ∀ r' ∈ l1, evaluate_rule data r' = false) ∧
    (find_matching_rule data rules = none ↔
       ∀ r ∈ rules, evaluate_rule data r = false) ∧
    (∀ r : Rule, evaluate_rule data r = true ↔
       (r.enabled ≠ some false ∧ r.conditions ≠ [] ∧
        ∀ cc ∈ r.conditions, evaluate_condition data cc = true)) := by
  refine ⟨?_, ?_, fun r => evaluate_rule_iff data r⟩
  · intro r h
    have hr : evaluate_rule data r = true := List.find?_some h
    have hiff := (evaluate_rule_iff data r).mp hr
    exact ⟨hr, hiff.1, hiff.2.1, findFirstSpec _ _ _ h⟩
  · unfold find_matching_rule
    rw [List.find?_eq_none]
    constructor
    · intro h r hm
      simpa using h r hm
    · intro h r hm
      simp [h r hm]

/-- C7 witness: on a concrete rule list, the returned rule is enabled, has
conditions and evaluates true. -/
theorem C7_witness :
    evaluate_rule dataC7 ruleGood = true ∧ ruleGood.enabled ≠ some false ∧
      ruleGood.conditions ≠ [] := by
  have h := (C7_find_matching_rule_first_enabled_match dataC7
    [ruleDisabled, ruleGood]).1 ruleGood (by decide)
  exact ⟨h.1, h.2.1, h.2.2.1⟩

/-- C5 counterexample: a condition on a metric absent from the snapshot
does not evaluate false — with operator `<` and threshold 5 it evaluates
true (the missing value is read as 0). -/
theorem C5_counterexample :
    dget ([] : MetricData) "x" = none ∧
    evaluate_condition [] { metric := "x", op := "<", value := PVal.pInt 5 } = true := by
  exact ⟨rfl, by decide⟩

/-- C5 (amended): when both sides coerce to numbers, `evaluateCondition`
is the standard comparison for each of the six operators; if either side
fails numeric coercion it returns false (and never raises, being total);
a missing metric is read as the value 0 (not as an automatic false). -/
theorem C5_evaluate_condition_semantics (data : MetricData) (c : Condition) :
    (∀ a v : ℚ, pyFloat (condActual data c) = some a → pyFloat c.value = some v →
       ((c.op = ">" → evaluate_condition data c = decide (a > v)) ∧
        (c.op = ">=" → evaluate_condition data c = decide (a ≥ v)) ∧
        (c.op = "<" → evaluate_condition data c = decide (a < v)) ∧
        (c.op = "<=" → evaluate_condition data c = decide (a ≤ v)) ∧
        (c.op = "==" → evaluate_condition data c = decide (a = v)) ∧
        (c.op = "!=" → evaluate_condition data c = decide (a ≠ v)))) ∧
    ((pyFloat (condActual data c) = none ∨ pyFloat c.value = none) →
       evaluate_condition data c = false) ∧
    (dget data c.metric = none → condActual data c = PVal.pInt 0) := by
  refine ⟨?_, ?_, ?_⟩
  · intro a v ha hv
    refine ⟨?_, ?_, ?_, ?_, ?_, ?_⟩ <;> intro hop <;>
      simp only [evaluate_condition, ha, hv, hop] <;> rfl
  · intro h
    rcases h with h | h
    · simp only [evaluate_condition, h]
    · cases hx : pyFloat (condActual data c) <;>
        simp only [evaluate_condition, hx, h]
  · intro h
    simp [condActual, h]

/-- C5 witness: at a concrete snapshot and condition both sides coerce and
the `>` comparison is the numeric one. -/
theorem C5_witness :
    evaluate_condition [("x", PVal.pFloat 3)]
      { metric := "x", op := ">", value := PVal.pInt 2 } = true := by
  have h := ((C5_evaluate_condition_semantics [("x", PVal.pFloat 3)]
    { metric := "x", op := ">", value := PVal.pInt 2 }).1 3 2 rfl rfl).1 rfl
  rw [h]
  decide

/-- C2 counterexample: a campaign with one enabled target (which qualifies
for pausing) and one paused target.  The spec's "at most one active target"
condition holds, yet the emitted row's entity is the target's own
(`Keyword`), not `Campaign` — the code counts targets of every state. -/
theorem C2_counterexample :
    activeTargetCount analysisC2.targets "100" ≤ 1 ∧
    ((generate_suggestions analysisC2 DEFAULTS "20260101").1).length = 1 ∧
    rowGet ((((generate_suggestions analysisC2 DEFAULTS "20260101").1).getD 0
        default).actions.getD 0 []) "Entity" = some (PVal.pStr "Keyword") ∧
    rowGet ((((generate_suggestions analysisC2 DEFAULTS "20260101").1).getD 0
        default).actions.getD 0 []) "Entity" ≠ some (PVal.pStr "Campaign") := by
  decide

/-- C2 (amended): for every target the pause-target generator decides to
pause, the single emitted row is an Update to state paused; when the owning
campaign has at most one target in the targets list (of any state, the
count the code uses) the row's entity is `Campaign`, otherwise it is the
target's own entity type with its identifying fields. -/
theorem C2_pause_target_entity (tpc : String → ℕ) (t : Thresholds)
    (tg : Target) (sug : Suggestion)
    (h : pauseTargetStep tpc t tg = some sug) :
    sug.actions.length = 1 ∧
    rowGet (sug.actions.getD 0 []) "Operation" = some (PVal.pStr "Update") ∧
    rowGet (sug.actions.getD 0 []) "State" = some (PVal.pStr "paused") ∧
    (if tpc tg.campaign_id ≤ 1 then
       rowGet (sug.actions.getD 0 []) "Entity" = some (PVal.pStr "Campaign") ∧
       rowGet (sug.actions.getD 0 []) "Campaign ID" = some (PVal.pStr tg.campaign_id) ∧
       rowGet (sug.actions.getD 0 []) "Campaign Name" = some (PVal.pStr tg.campaign_name)
     else
       rowGet (sug.actions.getD 0 []) "Entity" = some (PVal.pStr tg.entity) ∧
       (tg.entity = "Keyword" →
         rowGet (sug.actions.getD 0 []) "Keyword Text" = some (PVal.pStr tg.keyword_text) ∧
         rowGet (sug.actions.getD 0 []) "Match Type" = some (PVal.pStr tg.match_type)) ∧
       (tg.entity ≠ "Keyword" →
         rowGet (sug.actions.getD 0 []) "Product Targeting Expression" =
           some (PVal.pStr tg.product_targeting_expression))) := by
  simp only [pauseTargetStep] at h
  split at h
  · exact Option.noConfusion h
  · split at h
    · rename_i hle
      injection h with h
      subst h
      rw [if_pos hle]
      exact ⟨rfl, rfl, rfl, rfl, rfl, rfl⟩
    · rename_i hle
      injection h with h
      subst h
      rw [if_neg hle]
      refine ⟨rfl, rfl, rfl, rfl, ?_, ?_⟩
      · intro htg
        rw [htg]
        exact ⟨rfl, rfl⟩
      · intro htg
        rw [if_neg htg]
        rfl

/-- C2 witness: with a count of 1 the concrete qualifying target yields a
Campaign row; with a count of 3 it yields a Keyword row. -/
theorem C2_witness :
    rowGet (((pauseTargetStep (fun _ => 1) DEFAULTS tgtC2a).getD
        default).actions.getD 0 []) "Entity" = some (PVal.pStr "Campaign") ∧
    rowGet (((pauseTargetStep (fun _ => 3) DEFAULTS tgtC2a).getD
        default).actions.getD 0 []) "Entity" = some (PVal.pStr "Keyword") := by
  constructor
  · have h := (C2_pause_target_entity (fun _ => 1) DEFAULTS tgtC2a
      ((pauseTargetStep (fun _ => 1) DEFAULTS tgtC2a).getD default) (by decide)).2.2.2
    rw [if_pos (by decide)] at h
    exact h.1
  · have h := (C2_pause_target_entity (fun _ => 3) DEFAULTS tgtC2a
      ((pauseTargetStep (fun _ => 3) DEFAULTS tgtC2a).getD default) (by decide)).2.2.2
    rw [if_neg (by decide)] at h
    rw [h.1]
    decide

/-- Round-half-even lands within half a unit of its argument. -/
theorem roundHalfEven_bounds (q : ℚ) :
    q - 1/2 ≤ (roundHalfEven q : ℚ) ∧ (roundHalfEven q : ℚ) ≤ q + 1/2 := by
  unfold roundHalfEven
  have h0 : (⌊q⌋ : ℚ) ≤ q := Int.floor_le q
  have h1 : q < (⌊q⌋ : ℚ) + 1 := Int.lt_floor_add_one q
  split
  · rename_i hr
    constructor
    · linarith
    · linarith
  · split
    · rename_i hr hr2
      push_cast
      constructor
      · linarith
      · linarith
    · split <;> push_cast <;> constructor <;> linarith

/-- Rounding to cents moves a value by at most half a cent. -/
theorem round2_bounds (q : ℚ) :
    q - 1/200 ≤ round2 q ∧ round2 q ≤ q + 1/200 := by
  unfold round2
  have h := roundHalfEven_bounds (q * 100)
  constructor
  · rw [le_div_iff₀ (by norm_num : (0:ℚ) < 100)]
    linarith [h.1]
  · rw [div_le_iff₀ (by norm_num : (0:ℚ) < 100)]
    linarith [h.2]

/-- C3 counterexample: for the concrete strong campaign, the suggested CPC
the engine records (0.56) exceeds the ceiling
`acos_target_increase × CVR × AOV = 0.556` and differs from the exact
`min(currentCPC × (1+step), maxCPC)` — the code rounds to cents. -/
theorem C3_counterexample :
    (increase_bids [cC3] [] [("100", [tgtC3])] DEFAULTS).length = 1 ∧
    mGet ((increase_bids [cC3] [] [("100", [tgtC3])] DEFAULTS).getD 0
        default).metrics "suggested_cpc" = some (MVal.num (14/25)) ∧
    ¬ ((14/25 : ℚ) ≤ DEFAULTS.acos_target_increase * increaseCvr cC3 * increaseAov cC3) ∧
    (14/25 : ℚ) ≠
      min (cC3.cpc * (1 + DEFAULTS.bid_increase_step))
        (DEFAULTS.acos_target_increase * increaseCvr cC3 * increaseAov cC3) := by
  with_unfolding_all decide

/-- C3 (amended): the suggested new CPC equals
`round(min(currentCPC × (1+step), maxCPC), 2)` with
`maxCPC = acos_target_increase × CVR × AOV`; the campaign is skipped
whenever the current CPC already meets or exceeds `maxCPC` (emission
implies `cpc < maxCPC`), and the suggested CPC can exceed `maxCPC` only by
the rounding, at most half a cent. -/
theorem C3_increase_bids_cpc_ceiling (plc : List (String × List Placement))
    (tbc : List (String × List Target)) (t : Thresholds) (c : Campaign)
    (sug : Suggestion) (h : increaseBidsCampaign plc tbc t c = some sug) :
    mGet sug.metrics "suggested_cpc" = some (MVal.num (increaseNewCpc t c)) ∧
    increaseNewCpc t c =
      round2 (min (c.cpc * (1 + increaseStepOf t c)) (increaseMaxCpc t c)) ∧
    increaseNewCpc t c ≤ increaseMaxCpc t c + 1/200 ∧
    c.cpc < increaseMaxCpc t c := by
  have hle : increaseNewCpc t c ≤ increaseMaxCpc t c + 1/200 := by
    calc increaseNewCpc t c
        ≤ min (c.cpc * (1 + increaseStepOf t c)) (increaseMaxCpc t c) + 1/200 :=
          (round2_bounds _).2
      _ ≤ increaseMaxCpc t c + 1/200 := by
          have := min_le_right (c.cpc * (1 + increaseStepOf t c)) (increaseMaxCpc t c)
          linarith
  unfold increaseBidsCampaign at h
  split at h
  · exact absurd h (by simp)
  · split at h
    · exact absurd h (by simp)
    · split at h
      · exact absurd h (by simp)
      · split at h
        · exact absurd h (by simp)
        · rename_i hceil
          split at h
          · exact absurd h (by simp)
          · injection h with h
            subst h
            exact ⟨rfl, rfl, hle, lt_of_not_le hceil⟩

/-- C3 witness: the concrete campaign with CPC 0.40 emits, its suggested
CPC obeys the ceiling bound, and its CPC is below the ceiling. -/
theorem C3_witness :
    mGet ((increaseBidsCampaign [] [("100", [tgtC3])] DEFAULTS cC3w).getD
        default).metrics "suggested_cpc" = some (MVal.num (increaseNewCpc DEFAULTS cC3w)) ∧
    increaseNewCpc DEFAULTS cC3w ≤ increaseMaxCpc DEFAULTS cC3w + 1/200 ∧
    cC3w.cpc < increaseMaxCpc DEFAULTS cC3w := by
  have h := C3_increase_bids_cpc_ceiling [] [("100", [tgtC3])] DEFAULTS cC3w
    ((increaseBidsCampaign [] [("100", [tgtC3])] DEFAULTS cC3w).getD default)
    (by with_unfolding_all rfl)
  exact ⟨h.1, h.2.2.1, h.2.2.2⟩

/-- The fold behind `pyMinBy` yields the accumulator or a list element. -/
theorem pyMinByGo_mem {α : Type} (key : α → ℚ) :
    ∀ (l : List α) (acc : Option α) (b : α),
      (l.foldl (fun acc x =>
        match acc with
        | none => some x
        | some c => if key x < key c then some x else acc) acc) = some b →
      acc = some b ∨ b ∈ l := by
  intro l
  induction l with
  | nil => intro acc b h; exact Or.inl h
  | cons x rest ih =>
      intro acc b h
      rcases ih _ b h with hstep | hmem
      · cases acc with
        | none =>
            simp only at hstep
            injection hstep with hb
            exact Or.inr (by simp [hb])
        | some c =>
            simp only at hstep
            split at hstep
            · injection hstep with hb
              exact Or.inr (by simp [hb])
            · exact Or.inl hstep
      · exact Or.inr (List.mem_cons_of_mem _ hmem)

/-- Python's `min(l, key=...)` returns an element of the list. -/
theorem pyMinBy_mem {α : Type} (key : α → ℚ) (l : List α) (b : α)
    (h : pyMinBy key l = some b) : b ∈ l := by
  unfold pyMinBy at h
  rcases pyMinByGo_mem key l none b h with h1 | h1
  · exact Option.noConfusion h1
  · exact h1

/-- Every element of a group of `dappend m k x` was in a group of `m` or is
`x` itself. -/
theorem dappend_mem {α : Type} :
    ∀ (m : List (String × List α)) (k : String) (x : α) (kg : String × List α),
      kg ∈ dappend m k x → ∀ y ∈ kg.2, (∃ kg' ∈ m, y ∈ kg'.2) ∨ y = x := by
  intro m
  induction m with
  | nil =>
      intro k x kg hkg y hy
      simp only [dappend, List.mem_singleton] at hkg
      subst hkg
      simp at hy
      exact Or.inr hy
  | cons kv rest ih =>
      intro k x kg hkg y hy
      simp only [dappend] at hkg
      split at hkg
      · rcases List.mem_cons.mp hkg with hkg | hkg
        · subst hkg
          simp only [List.mem_append, List.mem_singleton] at hy
          rcases hy with hy | hy
          · exact Or.inl ⟨kv, List.mem_cons_self kv rest, hy⟩
          · exact Or.inr hy
        · exact Or.inl ⟨kg, List.mem_cons_of_mem _ hkg, hy⟩
      · rcases List.mem_cons.mp hkg with hkg | hkg
        · subst hkg
          exact Or.inl ⟨kg, List.mem_cons_self kg rest, hy⟩
        · rcases ih k x kg hkg y hy with ⟨kg', hkg', hy'⟩ | hx
          · exact Or.inl ⟨kg', List.mem_cons_of_mem _ hkg', hy'⟩
          · exact Or.inr hx

/-- Every element of a group produced by folding `dappend` over a list with
an empty accumulator came from the list. -/
theorem foldl_dappend_mem {α : Type} (key : α → String) :
    ∀ (l : List α) (acc : List (String × List α)) (kg : String × List α),
      kg ∈ l.foldl (fun m x => dappend m (key x) x) acc →
      ∀ y ∈ kg.2, (∃ kg' ∈ acc, y ∈ kg'.2) ∨ y ∈ l := by
  intro l
  induction l with
  | nil => intro acc kg hkg y hy; exact Or.inl ⟨kg, hkg, hy⟩
  | cons p rest ih =>
      intro acc kg hkg y hy
      rcases ih _ kg hkg y hy with ⟨kg', hkg', hy'⟩ | hmem
      · rcases dappend_mem acc (key p) p kg' hkg' y hy' with ⟨kg'', h''⟩ | hp
        · exact Or.inl ⟨kg'', h''⟩
        · exact Or.inr (by simp [hp])
      · exact Or.inr (List.mem_cons_of_mem _ hmem)

/-- Placements in a `plc_by_camp` group come from the placements list. -/
theorem plcByCamp_mem (ps : List Placement) (cid : String) (g : List Placement)
    (h : (cid, g) ∈ plcByCamp ps) (p : Placement) (hp : p ∈ g) : p ∈ ps := by
  unfold plcByCamp at h
  rcases foldl_dappend_mem (fun q => q.campaign_id) ps [] (cid, g) h p hp with
    ⟨kg', hkg', _⟩ | hmem
  · simp at hkg'
  · exact hmem

/-- A successful dict lookup returns a value stored in the list. -/
theorem dlookup_mem {α : Type} (m : List (String × α)) (k : String) (v : α)
    (h : dlookup m k = some v) : ∃ k', (k', v) ∈ m := by
  unfold dlookup at h
  cases hf : m.find? (fun kv => kv.1 == k) with
  | none => rw [hf] at h; exact Option.noConfusion h
  | some kv =>
      rw [hf] at h
      have h2 : kv.2 = v := by simpa using h
      refine ⟨kv.1, ?_⟩
      rw [← h2]
      simpa [Prod.mk.eta] using List.mem_of_find?_eq_some hf

/-- A target bid-update row never carries a `Percentage` column. -/
theorem targetBidRow_no_percentage (cid campName : String) (bid : ℚ) (tg : Target) :
    rowGet (targetBidRow cid campName bid tg) "Percentage" = none := by
  unfold targetBidRow
  split <;> rfl

/-- What an emitted placement-adjustment row of `_optimize_placements`
carries: the placement's name, the newly computed percentage, and the
guarantee that it differs from the (`int`-truncated) current one. -/
theorem optPlacementRowFor_spec (cid campName : String)
    (ineffM : List (String × (Placement × Option Rule))) (best : Option Placement)
    (newBestPct : ℚ) (p : Placement) (row : Row)
    (h : optPlacementRowFor cid campName ineffM best newBestPct p = some row) :
    rowGet row "Entity" = some (PVal.pStr "Bidding Adjustment") ∧
    rowGet row "Operation" = some (PVal.pStr "Update") ∧
    rowGet row "Placement" = some (PVal.pStr p.placement) ∧
    rowGet row "Percentage" = some (PVal.pFloat (optNewPct ineffM best newBestPct p)) ∧
    optNewPct ineffM best newBestPct p ≠ (pytrunc p.percentage : ℚ) := by
  simp only [optPlacementRowFor] at h
  split at h
  · rename_i hne
    injection h with h
    subst h
    exact ⟨rfl, rfl, rfl, rfl, hne⟩
  · exact Option.noConfusion h

/-- C1 counterexample: the placement optimizer emits a Keyword Update row
whose `Bid` equals the target's current bid.  With campaign CPC 1.00 the
bid ratio is 0.5, and a current bid at the 0.02 floor maps back to 0.02. -/
theorem C1_counterexample :
    tgtC1.bid = 1/50 ∧
    (optimize_placements [campC1] [plC1a, plC1b] [("100", [tgtC1])] DEFAULTS).length = 1 ∧
    rowGet (((optimize_placements [campC1] [plC1a, plC1b] [("100", [tgtC1])]
        DEFAULTS).getD 0 default).actions.getD 0 []) "Entity" = some (PVal.pStr "Keyword") ∧
    rowGet (((optimize_placements [campC1] [plC1a, plC1b] [("100", [tgtC1])]
        DEFAULTS).getD 0 default).actions.getD 0 []) "Operation" = some (PVal.pStr "Update") ∧
    rowGet (((optimize_placements [campC1] [plC1a, plC1b] [("100", [tgtC1])]
        DEFAULTS).getD 0 default).actions.getD 0 []) "Bid" = some (PVal.pFloat (1/50)) := by
  with_unfolding_all decide

/-- Any row of `increasePlacementRows` is the adjustment row of the best
placement of the campaign's group, guarded by a changed percentage. -/
theorem increasePlacementRows_spec (plc : List (String × List Placement))
    (t : Thresholds) (c : Campaign) (row : Row)
    (h : row ∈ increasePlacementRows plc t c) :
    ∃ best ∈ (dlookup plc c.campaign_id).getD [], row = increaseAdjRow t c best ∧
      increaseNewPct t c best ≠ (pytrunc best.percentage : ℚ) := by
  unfold increasePlacementRows at h
  split at h
  · exact absurd h (List.not_mem_nil row)
  · split at h
    · exact absurd h (List.not_mem_nil row)
    · rename_i best hbest
      split at h
      · rename_i hne
        rw [List.mem_singleton] at h
        exact ⟨best,
          List.mem_of_mem_filter (pyMinBy_mem _ _ _ hbest), h, hne⟩
      · exact absurd h (List.not_mem_nil row)

set_option maxHeartbeats 1000000 in
/-- C1 (amended): in both the placement-optimization and increase-bids
generators, every emitted row that carries a `Percentage` value is a
Bidding Adjustment row for one of the input placements, and its percentage
differs from that placement's current (`int`-truncated) percentage; target
bid Update rows carry no `Percentage` and may repeat the current bid. -/
theorem C1_no_noop_percentage_rows (campaigns : List Campaign)
    (placements : List Placement) (tbc : List (String × List Target))
    (t : Thresholds) :
    (∀ sug ∈ optimize_placements campaigns placements tbc t, ∀ row ∈ sug.actions,
       ∀ q : ℚ, rowGet row "Percentage" = some (PVal.pFloat q) →
         ∃ p ∈ placements, rowGet row "Placement" = some (PVal.pStr p.placement) ∧
           q ≠ (pytrunc p.percentage : ℚ)) ∧
    (∀ sug ∈ increase_bids campaigns placements tbc t, ∀ row ∈ sug.actions,
       ∀ q : ℚ, rowGet row "Percentage" = some (PVal.pFloat q) →
         ∃ p ∈ placements, rowGet row "Placement" = some (PVal.pStr p.placement) ∧
           q ≠ (pytrunc p.percentage : ℚ)) := by
  constructor
  · intro sug hsug row hrow q hq
    unfold optimize_placements at hsug
    rcases List.mem_filterMap.mp hsug with ⟨⟨cid, g⟩, hg, hstep⟩
    unfold optimizeCampaign at hstep
    split at hstep
    · exact Option.noConfusion hstep
    · rename_i camp hcamp
      split at hstep
      · exact Option.noConfusion hstep
      · split at hstep
        · exact Option.noConfusion hstep
        · split at hstep
          · exact Option.noConfusion hstep
          · split at hstep
            · exact Option.noConfusion hstep
            · injection hstep with hstep
              subst hstep
              simp only [optActions] at hrow
              rcases List.mem_append.mp hrow with hrow | hrow
              · rcases List.mem_map.mp hrow with ⟨tg, _, htg⟩
                rw [← htg, targetBidRow_no_percentage] at hq
                exact Option.noConfusion hq
              · rcases List.mem_filterMap.mp hrow with ⟨p, hpg, hpr⟩
                obtain ⟨_, _, hplc, hpct, hne⟩ :=
                  optPlacementRowFor_spec _ _ _ _ _ _ _ hpr
                refine ⟨p, plcByCamp_mem placements cid g hg p hpg, hplc, ?_⟩
                rw [hpct] at hq
                injection hq with hq
                injection hq with hq
                rw [hq] at hne
                exact hne
  · intro sug hsug row hrow q hq
    unfold increase_bids at hsug
    rcases List.mem_filterMap.mp hsug with ⟨c, hc, hstep⟩
    unfold increaseBidsCampaign at hstep
    split at hstep
    · exact Option.noConfusion hstep
    · split at hstep
      · exact Option.noConfusion hstep
      · split at hstep
        · exact Option.noConfusion hstep
        · split at hstep
          · exact Option.noConfusion hstep
          · split at hstep
            · exact Option.noConfusion hstep
            · injection hstep with hstep
              subst hstep
              simp only [increaseBidsActions] at hrow
              rcases List.mem_append.mp hrow with hrow | hrow
              · rcases List.mem_map.mp hrow with ⟨tg, _, htg⟩
                rw [← htg, targetBidRow_no_percentage] at hq
                exact Option.noConfusion hq
              · obtain ⟨best, hbmem, hroweq, hne⟩ :=
                  increasePlacementRows_spec _ _ _ _ hrow
                subst hroweq
                have hmem : best ∈ placements := by
                  cases hlk : dlookup (plcByCamp placements) c.campaign_id with
                  | none => rw [hlk] at hbmem; simp at hbmem
                  | some g =>
                      rw [hlk] at hbmem
                      obtain ⟨k', hk'⟩ := dlookup_mem _ _ _ hlk
                      exact plcByCamp_mem placements k' g hk' best hbmem
                refine ⟨best, hmem, rfl, ?_⟩
                have hpv : rowGet (increaseAdjRow t c best) "Percentage" =
                    some (PVal.pFloat (increaseNewPct t c best)) := rfl
                rw [hpv] at hq
                injection hq with hq
                injection hq with hq
                exact hq ▸ hne

/-- C1 witness: on a concrete campaign with a single ineffective placement
at 50 %, the emitted adjustment row names that placement and its new
percentage (0) differs from the current one. -/
theorem C1_witness :
    rowGet (((optimize_placements [campC1w] [plC1w] [] DEFAULTS).getD 0
        default).actions.getD 0 []) "Placement" = some (PVal.pStr plC1w.placement) ∧
    ((0 : ℚ) ≠ (pytrunc plC1w.percentage : ℚ)) := by
  have h := (C1_no_noop_percentage_rows [campC1w] [plC1w] [] DEFAULTS).1
    ((optimize_placements [campC1w] [plC1w] [] DEFAULTS).getD 0 default)
    (by with_unfolding_all decide)
    (((optimize_placements [campC1w] [plC1w] [] DEFAULTS).getD 0 default).actions.getD 0 [])
    (by with_unfolding_all decide)
    0 (by with_unfolding_all rfl)
  obtain ⟨p, hp, hplc, hne⟩ := h
  rw [List.mem_singleton] at hp
  subst hp
  exact ⟨hplc, hne⟩

/-- A skipping step of `_create_exact_campaigns` leaves the known-exact set
unchanged. -/
theorem createExactStep_none (ctx : ExactCtx) (t : Thresholds)
    (ex : List String) (r : SearchTermRow) (ex' : List String)
    (h : createExactStep ctx t ex r = (ex', none)) : ex' = ex := by
  simp only [createExactStep] at h
  split at h
  · injection h with h1 _; exact h1.symm
  · split at h
    · injection h with h1 _; exact h1.symm
    · split at h
      · injection h with h1 _; exact h1.symm
      · split at h
        · injection h with h1 _; exact h1.symm
        · injection h with _ h2; exact Option.noConfusion h2

/-- An emitting step of `_create_exact_campaigns`: the emitted suggestion
records the term, whose normalization was not yet known and is added. -/
theorem createExactStep_some (ctx : ExactCtx) (t : Thresholds)
    (ex : List String) (r : SearchTermRow) (ex' : List String) (sug : Suggestion)
    (h : createExactStep ctx t ex r = (ex', some sug)) :
    ex' = ex ++ [norm_kw r.search_term] ∧ sugTerm sug = r.search_term ∧
    norm_kw r.search_term ∉ ex := by
  simp only [createExactStep] at h
  split at h
  · injection h with _ h2; exact Option.noConfusion h2
  · split at h
    · injection h with _ h2; exact Option.noConfusion h2
    · split at h
      · injection h with _ h2; exact Option.noConfusion h2
      · split at h
        · injection h with _ h2; exact Option.noConfusion h2
        · rename_i hnotin
          injection h with h1 h2
          injection h2 with h2
          subst h2
          exact ⟨h1.symm, rfl, hnotin⟩

/-- Fold invariant of `_create_exact_campaigns`: no emitted term's
normalization is in the starting set, and the emitted normalizations are
pairwise distinct. -/
theorem createExactGo_spec (ctx : ExactCtx) (t : Thresholds) :
    ∀ (terms : List SearchTermRow) (ex : List String),
      (∀ s ∈ (createExactGo ctx t ex terms).2, norm_kw (sugTerm s) ∉ ex) ∧
      ((createExactGo ctx t ex terms).2.map
        (fun s => norm_kw (sugTerm s))).Pairwise (· ≠ ·) := by
  intro terms
  induction terms with
  | nil =>
      intro ex
      exact ⟨by intro s hs; simp [createExactGo] at hs, by simp [createExactGo]⟩
  | cons r rest ih =>
      intro ex
      cases hstep : createExactStep ctx t ex r with
      | mk ex' o =>
          cases o with
          | none =>
              have hgo : createExactGo ctx t ex (r :: rest) =
                  createExactGo ctx t ex' rest := by
                simp only [createExactGo, hstep]
              have hex : ex' = ex := createExactStep_none ctx t ex r ex' hstep
              rw [hgo, hex]
              exact ih ex
          | some sug =>
              obtain ⟨hex', hterm, hnotin⟩ :=
                createExactStep_some ctx t ex r ex' sug hstep
              have hgo : (createExactGo ctx t ex (r :: rest)).2 =
                  sug :: (createExactGo ctx t ex' rest).2 := by
                simp only [createExactGo, hstep]
              constructor
              · intro s hs
                rw [hgo] at hs
                rcases List.mem_cons.mp hs with hs | hs
                · subst hs
                  rw [hterm]
                  exact hnotin
                · intro hmem
                  exact (ih ex').1 s hs
                    (by rw [hex']; exact List.mem_append_left _ hmem)
              · rw [hgo, List.map_cons]
                refine List.Pairwise.cons ?_ (ih ex').2
                intro y hy heq
                rcases List.mem_map.mp hy with ⟨s, hs, hyeq⟩
                apply (ih ex').1 s hs
                rw [hex', hyeq, ← heq, hterm]
                exact List.mem_append_right _ (List.mem_singleton.mpr rfl)

/-- C6: within one run of the create-exact-campaign generator, the
normalized search terms of the emitted suggestions are pairwise distinct
(at most one suggestion per normalized term), and none of them coincides —
after normalization on both sides, i.e. case- and whitespace-insensitively
— with a keyword of the caller-supplied existing-exact set. -/
theorem C6_create_exact_dedup (ctx : ExactCtx) (t : Thresholds)
    (existingRaw : List String) (terms : List SearchTermRow) :
    ((create_exact_campaigns ctx t (existingRaw.map norm_kw) terms).2.map
      (fun s => norm_kw (sugTerm s))).Pairwise (· ≠ ·) ∧
    ∀ s ∈ (create_exact_campaigns ctx t (existingRaw.map norm_kw) terms).2,
      ∀ k ∈ existingRaw, norm_kw (sugTerm s) ≠ norm_kw k := by
  have h := createExactGo_spec ctx t terms (existingRaw.map norm_kw)
  refine ⟨h.2, ?_⟩
  intro s hs k hk heq
  exact (h.1 s hs) (heq ▸ List.mem_map_of_mem norm_kw hk)

/-- `getD` at an index inside the list returns a member. -/
theorem getD_mem {α : Type} :
    ∀ (l : List α) (i : ℕ) (d : α), i < l.length → l.getD i d ∈ l := by
  intro l
  induction l with
  | nil => intro i d h; simp at h
  | cons x xs ih =>
      intro i d h
      cases i with
      | zero => exact List.mem_cons_self x xs
      | succ n =>
          exact List.mem_cons_of_mem _ (ih n d (by simpa using h))

/-- C6 witness: the same qualifying term listed twice yields one suggestion,
and its normalized term differs from the existing keyword's. -/
theorem C6_witness :
    (create_exact_campaigns ctxC8 DEFAULTS (["Other KW"].map norm_kw)
      [stC8, stC8]).2.length = 1 ∧
    norm_kw (sugTerm ((create_exact_campaigns ctxC8 DEFAULTS
      (["Other KW"].map norm_kw) [stC8, stC8]).2.getD 0 default)) ≠
      norm_kw "Other KW" := by
  have hlen : (create_exact_campaigns ctxC8 DEFAULTS (["Other KW"].map norm_kw)
      [stC8, stC8]).2.length = 1 := by with_unfolding_all decide
  refine ⟨hlen, ?_⟩
  exact (C6_create_exact_dedup ctxC8 DEFAULTS ["Other KW"] [stC8, stC8]).2
    _ (getD_mem _ 0 default (by rw [hlen]; norm_num))
    "Other KW" (List.mem_singleton.mpr rfl)

/-- An emitting step of `_create_exact_campaigns` carries exactly the five
constructed action rows. -/
theorem createExactStep_some_actions (ctx : ExactCtx) (t : Thresholds)
    (ex : List String) (r : SearchTermRow) (ex' : List String) (sug : Suggestion)
    (h : createExactStep ctx t ex r = (ex', some sug)) :
    sug.actions = createExactActions ctx t r := by
  simp only [createExactStep] at h
  split at h
  · injection h with _ h2; exact Option.noConfusion h2
  · split at h
    · injection h with _ h2; exact Option.noConfusion h2
    · split at h
      · injection h with _ h2; exact Option.noConfusion h2
      · split at h
        · injection h with _ h2; exact Option.noConfusion h2
        · injection h with _ h2
          injection h2 with h2
          subst h2
          rfl

/-- C8 counterexample: with 3 clicks and spend 10 the true CPC is 10/3, but
the emitted Keyword `Bid` is 3.66 = round(round(10/3,2)·1.1, 2), not
CPC × multiplier = 11/3; with source budget 10.01 the emitted `Daily
Budget` is 5.00, not max(5, 5.005). -/
theorem C8_counterexample :
    (create_exact_campaigns ctxC8b DEFAULTS [] [stC8b]).2.length = 1 ∧
    rowGet (((create_exact_campaigns ctxC8b DEFAULTS [] [stC8b]).2.getD 0
        default).actions.getD 3 []) "Bid" = some (PVal.pFloat (183/50)) ∧
    (183/50 : ℚ) ≠ stC8b.spend / stC8b.clicks * DEFAULTS.bid_multiplier ∧
    rowGet (((create_exact_campaigns ctxC8b DEFAULTS [] [stC8b]).2.getD 0
        default).actions.getD 0 []) "Daily Budget" = some (PVal.pFloat 5) ∧
    (5 : ℚ) ≠ max 5 (campC8b.daily_budget * (1/2)) := by
  with_unfolding_all decide

/-- C8 (amended): every emitted create-exact suggestion carries exactly
five action rows in order — create Campaign (with `Daily Budget` =
round(max(5, source budget × 0.5), 2)), create Ad Group, create Product Ad
(carrying the resolved SKU/ASIN), create exact Keyword (state enabled,
`Bid` = round(cpc × multiplier, 2) with cpc = round(spend/clicks, 2), 0.50
when clicks is 0), and create Campaign Negative Keyword with match type
"Negative Exact" whose `Campaign ID` is the source campaign's. -/
theorem C8_create_exact_five_rows (ctx : ExactCtx) (t : Thresholds)
    (ex : List String) (r : SearchTermRow) (ex' : List String) (sug : Suggestion)
    (h : createExactStep ctx t ex r = (ex', some sug)) :
    sug.actions.length = 5 ∧
    rowGet (sug.actions.getD 0 []) "Entity" = some (PVal.pStr "Campaign") ∧
    rowGet (sug.actions.getD 0 []) "Operation" = some (PVal.pStr "Create") ∧
    rowGet (sug.actions.getD 0 []) "Daily Budget" = some (PVal.pFloat (round2 (max 5
      ((((dlookup ctx.camp_by_id r.campaign_id).map (fun c => c.daily_budget)).getD 10)
        * (1/2))))) ∧
    rowGet (sug.actions.getD 1 []) "Entity" = some (PVal.pStr "Ad Group") ∧
    rowGet (sug.actions.getD 1 []) "Operation" = some (PVal.pStr "Create") ∧
    rowGet (sug.actions.getD 2 []) "Entity" = some (PVal.pStr "Product Ad") ∧
    rowGet (sug.actions.getD 2 []) "Operation" = some (PVal.pStr "Create") ∧
    rowGet (sug.actions.getD 2 []) "SKU" =
      some (PVal.pStr ((dlookup ctx.camp_sku r.campaign_id).getD "")) ∧
    rowGet (sug.actions.getD 2 []) "ASIN" = some (PVal.pStr (exactAsin ctx r)) ∧
    rowGet (sug.actions.getD 3 []) "Entity" = some (PVal.pStr "Keyword") ∧
    rowGet (sug.actions.getD 3 []) "Operation" = some (PVal.pStr "Create") ∧
    rowGet (sug.actions.getD 3 []) "Match Type" = some (PVal.pStr "Exact") ∧
    rowGet (sug.actions.getD 3 []) "State" = some (PVal.pStr "enabled") ∧
    rowGet (sug.actions.getD 3 []) "Keyword Text" = some (PVal.pStr r.search_term) ∧
    rowGet (sug.actions.getD 3 []) "Bid" = some (PVal.pFloat (round2
      ((if r.clicks ≠ 0 then round2 (r.spend / r.clicks) else 1/2)
        * createExactMult t r))) ∧
    rowGet (sug.actions.getD 4 []) "Entity" =
      some (PVal.pStr "Campaign Negative Keyword") ∧
    rowGet (sug.actions.getD 4 []) "Operation" = some (PVal.pStr "Create") ∧
    rowGet (sug.actions.getD 4 []) "Match Type" = some (PVal.pStr "Negative Exact") ∧
    rowGet (sug.actions.getD 4 []) "Campaign ID" = some (PVal.pStr r.campaign_id) ∧
    rowGet (sug.actions.getD 4 []) "Keyword Text" = some (PVal.pStr r.search_term) := by
  rw [createExactStep_some_actions ctx t ex r ex' sug h]
  exact ⟨rfl, rfl, rfl, rfl, rfl, rfl, rfl, rfl, rfl, rfl, rfl, rfl, rfl, rfl,
    rfl, rfl, rfl, rfl, rfl, rfl, rfl⟩

/-- C8 witness: the spec scenario ("great keyword", 20 clicks, 5 orders,
spend 10, sales 100, broad source) yields five rows, the negative row
targeting the source campaign by its real identifier. -/
theorem C8_witness :
    ((createExactStep ctxC8 DEFAULTS [] stC8).2.getD default).actions.length = 5 ∧
    rowGet (((createExactStep ctxC8 DEFAULTS [] stC8).2.getD
        default).actions.getD 4 []) "Campaign ID" = some (PVal.pStr "100") ∧
    rowGet (((createExactStep ctxC8 DEFAULTS [] stC8).2.getD
        default).actions.getD 4 []) "Match Type" = some (PVal.pStr "Negative Exact") := by
  have h := C8_create_exact_five_rows ctxC8 DEFAULTS [] stC8
    (createExactStep ctxC8 DEFAULTS [] stC8).1
    ((createExactStep ctxC8 DEFAULTS [] stC8).2.getD default)
    (by with_unfolding_all rfl)
  obtain ⟨h1, _, _, _, _, _, _, _, _, _, _, _, _, _, _, _, _, _, h19, h20, _⟩ := h
  exact ⟨h1, show _ from h20 ▸ (by rfl), h19⟩

/-- A target bid-update row's operation is `Update`. -/
theorem targetBidRow_operation (cid campName : String) (bid : ℚ) (tg : Target) :
    rowGet (targetBidRow cid campName bid tg) "Operation" = some (PVal.pStr "Update") := by
  unfold targetBidRow
  split <;> rfl

/-- Every suggestion of the `_create_exact_campaigns` fold comes from an
emitting step. -/
theorem createExactGo_mem (ctx : ExactCtx) (t : Thresholds) :
    ∀ (terms : List SearchTermRow) (ex : List String) (sug : Suggestion),
      sug ∈ (createExactGo ctx t ex terms).2 →
      ∃ ex1 r ex2, createExactStep ctx t ex1 r = (ex2, some sug) := by
  intro terms
  induction terms with
  | nil => intro ex sug hs; simp [createExactGo] at hs
  | cons r rest ih =>
      intro ex sug hs
      cases hstep : createExactStep ctx t ex r with
      | mk ex' o =>
          cases o with
          | none =>
              rw [show (createExactGo ctx t ex (r :: rest)).2 =
                (createExactGo ctx t ex' rest).2 from by
                  simp only [createExactGo, hstep]] at hs
              exact ih ex' sug hs
          | some sug0 =>
              rw [show (createExactGo ctx t ex (r :: rest)).2 =
                sug0 :: (createExactGo ctx t ex' rest).2 from by
                  simp only [createExactGo, hstep]] at hs
              rcases List.mem_cons.mp hs with hs | hs
              · exact ⟨ex, r, ex', by rw [← hs] at hstep; exact hstep⟩
              · exact ih ex' sug hs

/-- Every suggestion of the `_negative_search_terms` fold comes from an
emitting step. -/
theorem negativeGo_mem (existing : List String) (t : Thresholds) :
    ∀ (terms : List SearchTermRow) (seen : List String) (sug : Suggestion),
      sug ∈ (negativeGo existing t seen terms).2 →
      ∃ seen1 r seen2, negativeStep existing t seen1 r = (seen2, some sug) := by
  intro terms
  induction terms with
  | nil => intro seen sug hs; simp [negativeGo] at hs
  | cons r rest ih =>
      intro seen sug hs
      cases hstep : negativeStep existing t seen r with
      | mk seen' o =>
          cases o with
          | none =>
              rw [show (negativeGo existing t seen (r :: rest)).2 =
                (negativeGo existing t seen' rest).2 from by
                  simp only [negativeGo, hstep]] at hs
              exact ih seen' sug hs
          | some sug0 =>
              rw [show (negativeGo existing t seen (r :: rest)).2 =
                sug0 :: (negativeGo existing t seen' rest).2 from by
                  simp only [negativeGo, hstep]] at hs
              rcases List.mem_cons.mp hs with hs | hs
              · exact ⟨seen, r, seen', by rw [← hs] at hstep; exact hstep⟩
              · exact ih seen' sug hs

/-- Every action row of a negative-search-term suggestion is a Campaign
Negative Keyword row. -/
theorem negativeStep_entity (existing : List String) (t : Thresholds)
    (seen : List String) (r : SearchTermRow) (seen' : List String)
    (sug : Suggestion) (h : negativeStep existing t seen r = (seen', some sug)) :
    ∀ row ∈ sug.actions,
      rowGet row "Entity" = some (PVal.pStr "Campaign Negative Keyword") := by
  simp only [negativeStep] at h
  split at h
  · injection h with _ h2; exact Option.noConfusion h2
  · split at h
    · injection h with _ h2; exact Option.noConfusion h2
    · split at h
      · injection h with _ h2; exact Option.noConfusion h2
      · injection h with _ h2
        injection h2 with h2
        subst h2
        intro row hrow
        rw [List.mem_singleton] at hrow
        subst hrow
        rfl

/-- Every action row of a pause-campaign suggestion is an Update row. -/
theorem pauseCampaignStep_update (t : Thresholds) (c : Campaign)
    (sug : Suggestion) (h : pauseCampaignStep t c = some sug) :
    ∀ row ∈ sug.actions, rowGet row "Operation" = some (PVal.pStr "Update") := by
  simp only [pauseCampaignStep] at h
  split at h
  · exact Option.noConfusion h
  · injection h with h
    subst h
    intro row hrow
    rw [List.mem_singleton] at hrow
    subst hrow
    rfl

/-- Every action row of a pause-target suggestion is an Update row. -/
theorem pauseTargetStep_update (tpc : String → ℕ) (t : Thresholds) (tg : Target)
    (sug : Suggestion) (h : pauseTargetStep tpc t tg = some sug) :
    ∀ row ∈ sug.actions, rowGet row "Operation" = some (PVal.pStr "Update") := by
  simp only [pauseTargetStep] at h
  split at h
  · exact Option.noConfusion h
  · split at h <;>
    · injection h with h
      subst h
      intro row hrow
      rw [List.mem_singleton] at hrow
      subst hrow
      rfl

/-- Every action row of a placement-optimization suggestion is an Update
row. -/
theorem optimizeCampaign_update (cbid : List (String × Campaign))
    (tbc : List (String × List Target)) (t : Thresholds) (cid : String)
    (cps : List Placement) (sug : Suggestion)
    (h : optimizeCampaign cbid tbc t cid cps = some sug) :
    ∀ row ∈ sug.actions, rowGet row "Operation" = some (PVal.pStr "Update") := by
  unfold optimizeCampaign at h
  split at h
  · exact Option.noConfusion h
  · split at h
    · exact Option.noConfusion h
    · split at h
      · exact Option.noConfusion h
      · split at h
        · exact Option.noConfusion h
        · split at h
          · exact Option.noConfusion h
          · injection h with h
            subst h
            intro row hrow
            simp only [optActions] at hrow
            rcases List.mem_append.mp hrow with hrow | hrow
            · rcases List.mem_map.mp hrow with ⟨tg, _, htg⟩
              rw [← htg]
              exact targetBidRow_operation _ _ _ tg
            · rcases List.mem_filterMap.mp hrow with ⟨p, _, hpr⟩
              exact (optPlacementRowFor_spec _ _ _ _ _ _ _ hpr).2.1

/-- Every action row of an increase-bids suggestion is an Update row. -/
theorem increaseBidsCampaign_update (plc : List (String × List Placement))
    (tbc : List (String × List Target)) (t : Thresholds) (c : Campaign)
    (sug : Suggestion) (h : increaseBidsCampaign plc tbc t c = some sug) :
    ∀ row ∈ sug.actions, rowGet row "Operation" = some (PVal.pStr "Update") := by
  unfold increaseBidsCampaign at h
  split at h
  · exact Option.noConfusion h
  · split at h
    · exact Option.noConfusion h
    · split at h
      · exact Option.noConfusion h
      · split at h
        · exact Option.noConfusion h
        · split at h
          · exact Option.noConfusion h
          · injection h with h
            subst h
            intro row hrow
            simp only [increaseBidsActions] at hrow
            rcases List.mem_append.mp hrow with hrow | hrow
            · rcases List.mem_map.mp hrow with ⟨tg, _, htg⟩
              rw [← htg]
              exact targetBidRow_operation _ _ _ tg
            · obtain ⟨best, _, hroweq, _⟩ := increasePlacementRows_spec _ _ _ _ hrow
              subst hroweq
              rfl

/-- C4 counterexample: a Create action row (the campaign-negative-keyword
row of the negatives generator) whose `Campaign ID` ("100") differs from
its `Campaign Name` ("C1") — it references the existing source campaign. -/
theorem C4_counterexample :
    (negative_search_terms [stC4] [] DEFAULTS).length = 1 ∧
    rowGet (((negative_search_terms [stC4] [] DEFAULTS).getD 0
        default).actions.getD 0 []) "Operation" = some (PVal.pStr "Create") ∧
    rowGet (((negative_search_terms [stC4] [] DEFAULTS).getD 0
        default).actions.getD 0 []) "Campaign ID" = some (PVal.pStr "100") ∧
    rowGet (((negative_search_terms [stC4] [] DEFAULTS).getD 0
        default).actions.getD 0 []) "Campaign Name" = some (PVal.pStr "C1") ∧
    ("100" : String) ≠ "C1" := by
  with_unfolding_all decide

/-- C4 (amended): in every Create action row emitted by any generator other
than the Campaign Negative Keyword rows (which reference the existing
source campaign by its real identifier), the identifier field holds the
same value as the corresponding name field: `Campaign ID` = `Campaign
Name`, and `Ad Group ID` (when present) = `Ad Group Name`. -/
theorem C4_create_rows_link_id_to_name (analysis : Analysis) (t : Thresholds)
    (d : String) :
    ∀ sug ∈ (generate_suggestions analysis t d).1, ∀ row ∈ sug.actions,
      rowGet row "Operation" = some (PVal.pStr "Create") →
      rowGet row "Entity" ≠ some (PVal.pStr "Campaign Negative Keyword") →
      rowGet row "Campaign ID" = rowGet row "Campaign Name" ∧
      (rowGet row "Ad Group ID" = none ∨
       rowGet row "Ad Group ID" = rowGet row "Ad Group Name") := by
  intro sug hsug row hrow hop hent
  simp only [generate_suggestions] at hsug
  rcases List.mem_append.mp hsug with hsug | hsug
  · rcases List.mem_append.mp hsug with hsug | hsug
    · rcases List.mem_append.mp hsug with hsug | hsug
      · rcases List.mem_append.mp hsug with hsug | hsug
        · rcases List.mem_append.mp hsug with hsug | hsug
          · obtain ⟨ex1, r, ex2, hstep⟩ := createExactGo_mem _ _ _ _ sug hsug
            have ha := createExactStep_some_actions _ _ _ _ _ _ hstep
            rw [ha] at hrow
            simp only [createExactActions, List.mem_cons, List.not_mem_nil,
              or_false] at hrow
            rcases hrow with hrow | hrow | hrow | hrow | hrow
            · subst hrow; exact ⟨rfl, Or.inl rfl⟩
            · subst hrow; exact ⟨rfl, Or.inr rfl⟩
            · subst hrow; exact ⟨rfl, Or.inr rfl⟩
            · subst hrow; exact ⟨rfl, Or.inr rfl⟩
            · subst hrow; exact absurd rfl hent
          · obtain ⟨s1, r, s2, hstep⟩ := negativeGo_mem _ _ _ _ sug hsug
            exact absurd (negativeStep_entity _ _ _ _ _ _ hstep row hrow) hent
        · rcases List.mem_filterMap.mp hsug with ⟨c, _, hstep⟩
          have hu := pauseCampaignStep_update _ _ _ hstep row hrow
          rw [hu] at hop
          exact absurd hop (by decide)
      · rcases List.mem_filterMap.mp hsug with ⟨tg, _, hstep⟩
        have hu := pauseTargetStep_update _ _ _ _ hstep row hrow
        rw [hu] at hop
        exact absurd hop (by decide)
    · rcases List.mem_filterMap.mp hsug with ⟨g, _, hstep⟩
      have hu := optimizeCampaign_update _ _ _ _ _ _ hstep row hrow
      rw [hu] at hop
      exact absurd hop (by decide)
  · rcases List.mem_filterMap.mp hsug with ⟨c, _, hstep⟩
    have hu := increaseBidsCampaign_update _ _ _ _ _ hstep row hrow
    rw [hu] at hop
    exact absurd hop (by decide)

/-- C4 witness: on the concrete scenario the created campaign row's
`Campaign ID` equals its `Campaign Name`. -/
theorem C4_witness :
    rowGet (((generate_suggestions analysisC8 DEFAULTS "20260101").1.getD 0
      default).actions.getD 0 []) "Campaign ID" =
    rowGet (((generate_suggestions analysisC8 DEFAULTS "20260101").1.getD 0
      default).actions.getD 0 []) "Campaign Name" := by
  have h := C4_create_rows_link_id_to_name analysisC8 DEFAULTS "20260101"
    ((generate_suggestions analysisC8 DEFAULTS "20260101").1.getD 0 default)
    (getD_mem _ 0 default (by with_unfolding_all decide))
    (((generate_suggestions analysisC8 DEFAULTS "20260101").1.getD 0
      default).actions.getD 0 [])
    (getD_mem _ 0 [] (by with_unfolding_all decide))
    (by with_unfolding_all rfl)
    (by with_unfolding_all decide)
  exact h.1

/-- A fold appending `f s` per element equals the accumulator followed by
the flattened map. -/
theorem foldl_append_flatten {α β : Type} (f : α → List β) :
    ∀ (l : List α) (acc : List β),
      l.foldl (fun acc s => acc ++ f s) acc = acc ++ (l.map f).flatten := by
  intro l
  induction l with
  | nil => intro acc; simp
  | cons x xs ih =>
      intro acc
      simp only [List.foldl_cons, List.map_cons, List.flatten_cons, ih,
        List.append_assoc]

/-- The serializer's nested loop flattens the suggestions' action rows in
order. -/
theorem build_bulk_rows_eq (sugs : List Suggestion) :
    build_bulk_rows sugs = ((sugs.map (fun s => s.actions)).flatten).map
      (fun a => applyProductDefault (buildRowDict a)) := by
  unfold build_bulk_rows
  rw [foldl_append_flatten (fun sug =>
    sug.actions.map (fun a => applyProductDefault (buildRowDict a))) sugs []]
  simp [List.map_flatten, List.map_map]
  rfl

/-- C9: the serializer is a total function of the suggestion list (it never
raises, whatever the cell values): the produced worksheet is the header row
followed, in order, by one rendered line per action row of the flattened
suggestions; int and float values (bools included, as Python int
subclasses) are written as numeric cells and strings as string cells; and a
row whose `Product` column is unset, `None` or empty gets
"Sponsored Products" there. -/
theorem C9_serializer_grid (sugs : List Suggestion) (a : Row) :
    build_bulk_xlsx sugs = (BULK_COLS.map Cell.str) ::
      ((sugs.map (fun s => s.actions)).flatten.map renderAction) ∧
    (∀ n : ℤ, cellOf (PVal.pInt n) = Cell.num n) ∧
    (∀ q : ℚ, cellOf (PVal.pFloat q) = Cell.num q) ∧
    (∀ b : Bool, cellOf (PVal.pBool b) = Cell.num (if b then 1 else 0)) ∧
    (∀ st : String, cellOf (PVal.pStr st) = Cell.str st) ∧
    ((rowGet a "Product" = none ∨ rowGet a "Product" = some (PVal.pStr "") ∨
      rowGet a "Product" = some PVal.pNone) →
      rowGet (applyProductDefault (buildRowDict a)) "Product" =
        some (PVal.pStr "Sponsored Products")) := by
  refine ⟨?_, fun n => rfl, fun q => rfl, fun b => rfl, fun st => rfl, ?_⟩
  · unfold build_bulk_xlsx
    rw [build_bulk_rows_eq, List.map_map]
    rfl
  · intro h
    have hv : rowGet (buildRowDict a) "Product" = some (PVal.pStr "") := by
      have hbase : rowGet (buildRowDict a) "Product" =
          some (if ((rowGet a "Product").getD (PVal.pStr "")) = PVal.pNone
                then PVal.pStr ""
                else ((rowGet a "Product").getD (PVal.pStr ""))) := rfl
      rcases h with h | h | h <;> rw [hbase, h] <;> rfl
    have hcond : ¬ pyTruthy ((rowGet (buildRowDict a) "Product").getD
        (PVal.pStr "")) = true := by
      rw [hv]
      decide
    unfold applyProductDefault
    rw [if_pos hcond]
    rfl

/-- C9 witness: a row without a `Product` column is serialized with the
sponsored-products default. -/
theorem C9_witness :
    rowGet (applyProductDefault (buildRowDict rowC9)) "Product" =
      some (PVal.pStr "Sponsored Products") := by
  exact (C9_serializer_grid sugsC9 rowC9).2.2.2.2.2 (Or.inl rfl)

/-- The `_create_exact_campaigns` fold only grows the known-exact set. -/
theorem createExactGo_mono (ctx : ExactCtx) (t : Thresholds) :
    ∀ (terms : List SearchTermRow) (ex : List String) (k : String),
      k ∈ ex → k ∈ (createExactGo ctx t ex terms).1 := by
  intro terms
  induction terms with
  | nil => intro ex k hk; simpa [createExactGo] using hk
  | cons r rest ih =>
      intro ex k hk
      cases hstep : createExactStep ctx t ex r with
      | mk ex' o =>
          cases o with
          | none =>
              rw [show (createExactGo ctx t ex (r :: rest)).1 =
                (createExactGo ctx t ex' rest).1 from by
                  simp only [createExactGo, hstep]]
              rw [createExactStep_none ctx t ex r ex' hstep] at *
              exact ih ex k hk
          | some sug =>
              rw [show (createExactGo ctx t ex (r :: rest)).1 =
                (createExactGo ctx t ex' rest).1 from by
                  simp only [createExactGo, hstep]]
              refine ih ex' k ?_
              rw [(createExactStep_some ctx t ex r ex' sug hstep).1]
              exact List.mem_append_left _ hk

/-- C10: `generate_suggestions` leaves the caller's analysis record
unchanged — the returned run state carries it back untouched, the
existing-negatives set it read is the analysis's own entry, and the
known-exact dedup set the run mutated is a fresh local set seeded with the
normalizations of the analysis's `existing_exact_keywords` (all still
present at the end of the run). -/
theorem C10_generate_preserves_analysis (analysis : Analysis) (t : Thresholds)
    (d : String) :
    (generate_suggestions analysis t d).2.analysis = analysis ∧
    (generate_suggestions analysis t d).2.existing_negatives =
      analysis.existing_negatives ∧
    ∀ k ∈ analysis.existing_exact_keywords,
      norm_kw k ∈ (generate_suggestions analysis t d).2.existing_exact := by
  refine ⟨rfl, rfl, ?_⟩
  intro k hk
  exact createExactGo_mono _ _ _ _ _ (List.mem_map_of_mem norm_kw hk)

/-- C10 witness: on a concrete analysis the record comes back unchanged and
the seeded normalized keyword is still in the final dedup set. -/
theorem C10_witness :
    (generate_suggestions analysisC10 DEFAULTS "20260101").2.analysis = analysisC10 ∧
    norm_kw "Foo  Bar" ∈
      (generate_suggestions analysisC10 DEFAULTS "20260101").2.existing_exact := by
  have h := C10_generate_preserves_analysis analysisC10 DEFAULTS "20260101"
  exact ⟨h.1, h.2.2 "Foo  Bar" (List.mem_singleton.mpr rfl)⟩

end Adv
